import Mathlib

/-!
Shallow embedding of the orchestration core of `evm-tui` (a terminal
blockchain browser written in Rust), together with proofs about the
navigation state machine, the hydration drain step, the favorites
coordinator, the transaction-row construction and the main loop.

Every definition is transcribed from the repository sources:
  * `src/app/mod.rs`       — `App`, `AppState`, `NavigationState`,
    `MainViewTab`, `AddressTransactionRow::from_transaction`,
    `App::dispatch`, `App::toggle_favorite`, `App::drain_messages`,
    `App::run`, `App::tick`, `format_eth_value`, `trim_decimal`.
  * `src/ui/sidebar.rs`    — `Sidebar`, `Sidebar::update`.
  * `src/ui/util.rs`       — `short_hex`.
  * `src/ui/top.rs`        — the `TopCommand` arms touched by the
    drain step (`ShowStatus`, `SearchCompleted`, `SearchFailed`).
  * `src/storage/repositories.rs` — `FavoriteRecord` and the favorites
    partition (a key/value map keyed by the identifier).

Rust strings are modelled as Lean `String` (display strings are built
through `List Char` where character-level reasoning is needed; the
strings involved are ASCII, where Rust's byte indexing and Lean's
character indexing agree).  `U256` values are modelled as `Nat`: the
embedded code only tests them for zero and formats them, it performs no
wrapping arithmetic.  `Instant` timestamps inside `PaneLoading` are
real-time data and are not modelled; only the `is_loading` flag is.
Fallible storage operations are modelled with an explicit success flag,
and `?`-propagation of a storage failure is modelled by `Except`.
-/

set_option maxRecDepth 8192

namespace EvmTui

/-! ### Navigation enums (src/app/mod.rs, `mod navigation`) -/

inductive FocusedPane where
  | top
  | sidebar
  | mainView
  | bottomBar
  | modal
deriving DecidableEq, Repr, Fintype

inductive SidebarTab where
  | addresses
  | transactions
deriving DecidableEq, Repr, Fintype

inductive MainViewMode where
  | address
  | transaction
deriving DecidableEq, Repr, Fintype

inductive MainViewTab where
  | addressInfo
  | addressTransactions
  | addressInternal
  | addressBalances
  | addressPermissions
  | transactionSummary
  | transactionDebug
  | transactionStorageDiff
deriving DecidableEq, Repr, Fintype

/-- `SidebarTab::next` (mod.rs:1472-1477). -/
def SidebarTab.next : SidebarTab → SidebarTab
  | .addresses => .transactions
  | .transactions => .addresses

/-- `SidebarTab::previous` (mod.rs:1479-1484). -/
def SidebarTab.previous : SidebarTab → SidebarTab
  | .addresses => .transactions
  | .transactions => .addresses

/-- `MainViewTab::normalize` (mod.rs:1518-1535). -/
def MainViewTab.normalize (t : MainViewTab) (mode : MainViewMode) : MainViewTab :=
  match mode with
  | .address =>
    match t with
    | .addressInfo | .addressTransactions | .addressInternal
    | .addressBalances | .addressPermissions => t
    | _ => .addressInfo
  | .transaction =>
    match t with
    | .transactionSummary | .transactionDebug | .transactionStorageDiff => t
    | _ => .transactionSummary

/-- `MainViewTab::next` (mod.rs:1537-1554). -/
def MainViewTab.next (t : MainViewTab) (mode : MainViewMode) : MainViewTab :=
  match mode with
  | .address =>
    match t.normalize mode with
    | .addressInfo => .addressTransactions
    | .addressTransactions => .addressInternal
    | .addressInternal => .addressBalances
    | .addressBalances => .addressPermissions
    | .addressPermissions => .addressInfo
    | other => other
  | .transaction =>
    match t.normalize mode with
    | .transactionSummary => .transactionDebug
    | .transactionDebug => .transactionStorageDiff
    | .transactionStorageDiff => .transactionSummary
    | other => other

/-- `MainViewTab::previous` (mod.rs:1556-1573). -/
def MainViewTab.previous (t : MainViewTab) (mode : MainViewMode) : MainViewTab :=
  match mode with
  | .address =>
    match t.normalize mode with
    | .addressInfo => .addressPermissions
    | .addressTransactions => .addressInfo
    | .addressInternal => .addressTransactions
    | .addressBalances => .addressInternal
    | .addressPermissions => .addressBalances
    | other => other
  | .transaction =>
    match t.normalize mode with
    | .transactionSummary => .transactionStorageDiff
    | .transactionDebug => .transactionSummary
    | .transactionStorageDiff => .transactionDebug
    | other => other

/-! ### NavigationState (mod.rs:1291-1351) -/

structure NavigationState where
  focused_pane : FocusedPane
  modal_return_focus : FocusedPane
  sidebar_tab : SidebarTab
  main_view_mode : MainViewMode
  main_view_tab : MainViewTab
deriving DecidableEq, Repr, Fintype

/-- `NavigationState::default()`: every field takes its `Default`
(`FocusedPane::Top`, `SidebarTab::Addresses`, `MainViewMode::Address`,
`MainViewTab::AddressInfo`). -/
def NavigationState.default : NavigationState :=
  { focused_pane := .top
    modal_return_focus := .top
    sidebar_tab := .addresses
    main_view_mode := .address
    main_view_tab := .addressInfo }

/-- `NavigationState::focus_modal` (mod.rs:1311-1316). -/
def NavigationState.focus_modal (s : NavigationState) : NavigationState :=
  let s :=
    if s.focused_pane ≠ FocusedPane.modal then
      { s with modal_return_focus := s.focused_pane }
    else s
  { s with focused_pane := .modal }

/-- `NavigationState::focus_pane` (mod.rs:1301-1309). -/
def NavigationState.focus_pane (s : NavigationState) (pane : FocusedPane) : NavigationState :=
  match pane with
  | .modal => s.focus_modal
  | other => { s with focused_pane := other, modal_return_focus := other }

/-- `NavigationState::restore_focus_after_modal` (mod.rs:1318-1321). -/
def NavigationState.restore_focus_after_modal (s : NavigationState) : NavigationState :=
  let s := { s with focused_pane := s.modal_return_focus }
  { s with modal_return_focus := s.focused_pane }

/-- `NavigationState::focus_next` (mod.rs:1323-1331). -/
def NavigationState.focus_next (s : NavigationState) : NavigationState :=
  let nxt :=
    match s.focused_pane with
    | .top => FocusedPane.sidebar
    | .sidebar => FocusedPane.mainView
    | .mainView => FocusedPane.bottomBar
    | .bottomBar | .modal => FocusedPane.top
  s.focus_pane nxt

/-- `NavigationState::focus_previous` (mod.rs:1333-1342). -/
def NavigationState.focus_previous (s : NavigationState) : NavigationState :=
  let prev :=
    match s.focused_pane with
    | .top => FocusedPane.bottomBar
    | .sidebar => FocusedPane.top
    | .mainView => FocusedPane.sidebar
    | .bottomBar => FocusedPane.mainView
    | .modal => s.modal_return_focus
  s.focus_pane prev

/-! ### String helpers

`eq_ignore_ascii_case` (Rust `str::eq_ignore_ascii_case`) compares the
two strings after lowering ASCII letters; on the ASCII identifiers the
program handles, byte-wise and character-wise comparison agree. -/

def asciiLower (c : Char) : Char :=
  if 'A' ≤ c ∧ c ≤ 'Z' then Char.ofNat (c.toNat + 32) else c

def eqIgnoreAsciiCase (a b : String) : Bool :=
  a.data.map asciiLower == b.data.map asciiLower

def charIsWs (c : Char) : Bool := c.isWhitespace

/-- Rust `str::trim`, on the character list. -/
def trimChars (l : List Char) : List Char :=
  ((l.dropWhile charIsWs).reverse.dropWhile charIsWs).reverse

/-- `short_hex` (src/ui/util.rs:1-11): trim, and when longer than 10
characters keep the first 6 and last 4 around an ellipsis. -/
def shortHex (value : String) : String :=
  let trimmed := trimChars value.data
  if trimmed.length ≤ 10 then String.mk trimmed
  else
    let n := trimmed.length
    let prefixLen := min 6 n
    let suffixLen := min 4 (n - prefixLen)
    String.mk (trimmed.take prefixLen ++ ['.', '.', '.'] ++ trimmed.drop (n - suffixLen))

/-- Substring test used by the drain step's status-message selection
(Rust `str::contains` with a literal pattern). -/
def listStartsWith : List Char → List Char → Bool
  | _, [] => true
  | [], _ :: _ => false
  | a :: as, b :: bs => a == b && listStartsWith as bs

def listContainsSub (pat : List Char) : List Char → Bool
  | [] => listStartsWith [] pat
  | c :: t => listStartsWith (c :: t) pat || listContainsSub pat t

def strContains (s pat : String) : Bool :=
  listContainsSub pat.data s.data

/-! ### Wei formatting (mod.rs:1206-1232 and alloy `format_units`)

`format_units(v, "ether")` renders `v` wei as
`"<v / 10^18>.<18 zero-padded fractional digits>"`; it cannot fail for
the unit `"ether"`.  `trim_decimal` then strips trailing zeros and a
trailing dot. -/

def decDigits (n : Nat) : List Char :=
  if h : n < 10 then [Char.ofNat (48 + n)]
  else decDigits (n / 10) ++ [Char.ofNat (48 + n % 10)]
decreasing_by
  exact Nat.div_lt_self (by omega) (by omega)

def padZeros (width : Nat) (l : List Char) : List Char :=
  List.replicate (width - l.length) '0' ++ l

/-- The character list produced by `format_units(v, "ether")`. -/
def formatUnitsEther (v : Nat) : List Char :=
  decDigits (v / 10 ^ 18) ++ '.' :: padZeros 18 (decDigits (v % 10 ^ 18))

/-- `trim_decimal` (mod.rs:1223-1232). -/
def trim_decimal (s : List Char) : List Char :=
  if s.contains '.' then
    let s1 := (s.reverse.dropWhile (fun c => c == '0')).reverse
    if s1.getLast? = some '.' then s1.dropLast else s1
  else s

/-- `format_eth_value` (mod.rs:1206-1221).  The `Err` arm of
`format_units` is unreachable for the unit `"ether"`. -/
def format_eth_value (v : Nat) : String :=
  if v = 0 then "0 ETH"
  else
    let eth := trim_decimal (formatUnitsEther v)
    if eth.isEmpty then "0 ETH" else String.mk (eth ++ [' ', 'E', 'T', 'H'])

/-- Does a display string carry a sign prefix character? -/
def hasSign (s : String) : Bool :=
  match s.data.head? with
  | some c => c == '+' || c == '-'
  | none => false

/-! ### Entity data model (mod.rs:37-200, anvil.rs:9-14, etherscan.rs:15-22) -/

structure AddressRef where
  label : String
  address : String
  chain : String
deriving DecidableEq, Repr

structure TransactionRef where
  label : String
  hash : String
  chain : String
deriving DecidableEq, Repr

inductive SelectedEntity where
  | address (a : AddressRef)
  | transaction (t : TransactionRef)
deriving DecidableEq, Repr

structure AccountOverview where
  latest_block : Nat
  balance_wei : Nat
  transaction_count : Nat
  is_contract : Bool
deriving DecidableEq, Repr

inductive TransactionStatus where
  | success
  | failed
deriving DecidableEq, Repr

inductive TransactionDirection where
  | incoming
  | outgoing
  | selfTransfer
  | interaction
deriving DecidableEq, Repr

/-- `AddressTransaction` (etherscan.rs:15-22); the `input` field is the
optional raw calldata carried into `from_transaction`. -/
structure AddressTransaction where
  hash : String
  block_number : Nat
  sender : String
  toAddr : Option String
  value_wei : Nat
  is_error : Bool
  input : Option String
deriving DecidableEq, Repr

structure AddressTransactionRow where
  hash : String
  sender : String
  toAddr : Option String
  value_wei : Nat
  block_number : Option Nat
  direction : TransactionDirection
  counterparty : String
  value_display : String
  status : TransactionStatus
  calldata : Option String
deriving DecidableEq, Repr

structure AddressTransactionsTable where
  source_label : String
  source_api_version : String
  limit : Nat
  rows : List AddressTransactionRow
deriving DecidableEq, Repr

structure HydratedAddress where
  identifier : String
  info : List String
  transactions : List String
  transactions_table : Option AddressTransactionsTable
  internal : List String
  balances : List String
  permissions : List String
  overview : Option AccountOverview
deriving DecidableEq, Repr

structure HydratedTransaction where
  identifier : String
  summary : List String
  debug_lines : List String
  storage_diff : List String
  sender : Option String
  toAddr : Option String
  value_formatted : Option String
  calldata : Option String
  block_number : Option Nat
  status : Option TransactionStatus
deriving DecidableEq, Repr

/-- `AddressTransactionRow::from_transaction` (mod.rs:125-186).  The
Rust field `from` is named `sender` here (`from` is a Lean keyword). -/
def from_transaction (target_address : String) (tx : AddressTransaction) :
    AddressTransactionRow :=
  let is_sender := eqIgnoreAsciiCase tx.sender target_address
  let is_recipient := (tx.toAddr.map (fun a => eqIgnoreAsciiCase a target_address)).getD false
  let direction :=
    if is_sender && is_recipient then TransactionDirection.selfTransfer
    else if is_sender then TransactionDirection.outgoing
    else if is_recipient then TransactionDirection.incoming
    else TransactionDirection.interaction
  let counterparty :=
    if is_sender && is_recipient then "Self"
    else if is_sender then (tx.toAddr.map shortHex).getD "Contract creation"
    else if is_recipient then shortHex tx.sender
    else (tx.toAddr.map shortHex).getD (shortHex tx.sender)
  let value0 := format_eth_value tx.value_wei
  let value :=
    if tx.value_wei ≠ 0 then
      match direction with
      | .outgoing => "-" ++ value0
      | .incoming => "+" ++ value0
      | _ => value0
    else value0
  { hash := tx.hash
    sender := tx.sender
    toAddr := tx.toAddr
    value_wei := tx.value_wei
    block_number := if tx.block_number > 0 then some tx.block_number else none
    direction := direction
    counterparty := counterparty
    value_display := value
    status := if tx.is_error then TransactionStatus.failed else TransactionStatus.success
    calldata := tx.input }

/-! ### Actions (mod.rs:1429-1440) -/

inductive Action where
  | quit
  | focusPane (p : FocusedPane)
  | focusNextPane
  | focusPreviousPane
  | selectionChanged (e : SelectedEntity)
  | loadingStarted (p : FocusedPane)
  | loadingFinished (p : FocusedPane)
  | closeModal
  | secretsSaved
deriving DecidableEq, Repr

/-! ### Sidebar (src/ui/sidebar.rs) -/

structure Sidebar where
  addresses : List AddressRef
  transactions : List TransactionRef
  selected_index : Nat
deriving DecidableEq, Repr

inductive SidebarCommand where
  | moveUp
  | moveDown
  | nextTab
  | previousTab
  | selectIndex (i : Nat)
  | switchTab (t : SidebarTab)
  | hydrationStarted
  | hydrationFinished
  | addFavorite (e : SelectedEntity)
  | removeFavorite (e : SelectedEntity)
deriving DecidableEq, Repr

def Sidebar.len (sb : Sidebar) (tab : SidebarTab) : Nat :=
  match tab with
  | .addresses => sb.addresses.length
  | .transactions => sb.transactions.length

/-- `Sidebar::clamp_selection` (sidebar.rs:57-64). -/
def Sidebar.clamp_selection (sb : Sidebar) (tab : SidebarTab) : Sidebar :=
  let len := sb.len tab
  if len = 0 then { sb with selected_index := 0 }
  else if sb.selected_index ≥ len then { sb with selected_index := len - 1 }
  else sb

/-- `Sidebar::selected_entity` (sidebar.rs:80-91). -/
def Sidebar.selected_entity (sb : Sidebar) (tab : SidebarTab) (index : Nat) :
    Option SelectedEntity :=
  match tab with
  | .addresses => (sb.addresses.get? index).map SelectedEntity.address
  | .transactions => (sb.transactions.get? index).map SelectedEntity.transaction

/-- `Sidebar::update` (sidebar.rs:124-233).  The sidebar tab lives in
`ctx.state.navigation.sidebar_tab`, so the function takes and returns it
alongside the sidebar itself, returning also the optional action the
component hands back to `App` for dispatch. -/
def Sidebar.update (sb : Sidebar) (tab : SidebarTab) (cmd : SidebarCommand) :
    Sidebar × SidebarTab × Option Action :=
  let step : Sidebar × SidebarTab × Bool :=
    match cmd with
    | .moveUp =>
      if sb.selected_index > 0 then
        ({ sb with selected_index := sb.selected_index - 1 }, tab, true)
      else (sb, tab, false)
    | .moveDown =>
      let len := sb.len tab
      if len > 0 then
        ({ sb with selected_index := min (sb.selected_index + 1) (len - 1) }, tab, true)
      else (sb, tab, false)
    | .nextTab =>
      let tab := tab.next
      (({ sb with selected_index := 0 }).clamp_selection tab, tab, true)
    | .previousTab =>
      let tab := tab.previous
      (({ sb with selected_index := 0 }).clamp_selection tab, tab, true)
    | .selectIndex i =>
      let len := sb.len tab
      if len > 0 then ({ sb with selected_index := min i (len - 1) }, tab, true)
      else (sb, tab, false)
    | .switchTab t =>
      (({ sb with selected_index := 0 }).clamp_selection t, t, true)
    | .hydrationStarted | .hydrationFinished => (sb, tab, false)
    | .addFavorite e =>
      let (sb, changed) :=
        match e with
        | .address addr =>
          if !(sb.addresses.any (fun a => a.address == addr.address)) then
            let sb := { sb with addresses := addr :: sb.addresses }
            if tab = SidebarTab.addresses then
              ({ sb with selected_index := 0 }, true)
            else (sb, false)
          else (sb, false)
        | .transaction tx =>
          if !(sb.transactions.any (fun t => t.hash == tx.hash)) then
            let sb := { sb with transactions := tx :: sb.transactions }
            if tab = SidebarTab.transactions then
              ({ sb with selected_index := 0 }, true)
            else (sb, false)
          else (sb, false)
      let sb :=
        if tab = SidebarTab.addresses then sb.clamp_selection .addresses
        else sb.clamp_selection .transactions
      (sb, tab, changed)
    | .removeFavorite e =>
      let (sb, changed) :=
        match e with
        | .address addr =>
          if sb.addresses.any (fun a => a.address == addr.address) then
            ({ sb with addresses := sb.addresses.filter (fun a => a.address ≠ addr.address) },
              decide (tab = SidebarTab.addresses))
          else (sb, false)
        | .transaction tx =>
          if sb.transactions.any (fun t => t.hash == tx.hash) then
            ({ sb with transactions := sb.transactions.filter (fun t => t.hash ≠ tx.hash) },
              decide (tab = SidebarTab.transactions))
          else (sb, false)
      let sb :=
        if tab = SidebarTab.addresses then sb.clamp_selection .addresses
        else sb.clamp_selection .transactions
      (sb, tab, changed)
  let (sb, tab, selection_changed) := step
  if selection_changed then
    match sb.selected_entity tab sb.selected_index with
    | some entity => (sb, tab, some (Action.selectionChanged entity))
    | none => (sb, tab, none)
  else (sb, tab, none)

/-! ### Persisted favorites store (storage/repositories.rs:6-48)

The fjall partition is a key/value map keyed by the identifier bytes.
It is modelled as an association list; store contents are always
compared through `favFind` (the map it denotes), never through the
internal list order. -/

structure FavoriteRecord where
  label : Option String
  identifier : String
  chain : String
deriving DecidableEq, Repr

abbrev FavStore := List (String × FavoriteRecord)

def favFind : FavStore → String → Option FavoriteRecord
  | [], _ => none
  | p :: t, key => if p.1 = key then some p.2 else favFind t key

/-- `FavoritesRepository::upsert`: insert-or-replace under
`record.identifier`. -/
def favUpsert (st : FavStore) (record : FavoriteRecord) : FavStore :=
  if st.any (fun p => p.1 == record.identifier) then
    st.map (fun p => if p.1 == record.identifier then (record.identifier, record) else p)
  else st ++ [(record.identifier, record)]

/-- `FavoritesRepository::remove`. -/
def favRemove (st : FavStore) (key : String) : FavStore :=
  st.filter (fun p => p.1 ≠ key)

/-! ### Application state (mod.rs:239-252, 1246-1290, 1353-1377)

One record gathers `App` (the `running` flag, the sidebar component, the
top-bar fields touched through `TopCommand`, the modal presence) with
`AppState` and the persisted stores, i.e. everything the embedded
operations read or write. -/

structure AppModel where
  running : Bool
  navigation : NavigationState
  loading_top : Bool
  loading_sidebar : Bool
  loading_main_view : Bool
  selected : Option SelectedEntity
  search_error : Option String
  favorite_addresses : List String
  favorite_transactions : List String
  current_address : Option HydratedAddress
  current_transaction : Option HydratedTransaction
  atv_selected_index : Nat
  pending_transaction_preview : Option AddressTransactionRow
  transaction_preview_cache : List (String × AddressTransactionRow)
  sidebar : Sidebar
  top_status : Option String
  search_active : Bool
  pending_search : Bool
  search_value : String
  secrets_modal_open : Bool
  store_addresses : FavStore
  store_transactions : FavStore
  settings : List (String × String)
deriving DecidableEq, Repr

/-- `HashSet::insert` on the membership sets. -/
def setInsert (l : List String) (k : String) : List String :=
  if k ∈ l then l else k :: l

/-- `HashSet::remove` on the membership sets. -/
def setRemove (l : List String) (k : String) : List String :=
  l.filter (fun x => x ≠ k)

/-- `HashMap::insert` on the transaction preview cache. -/
def cacheInsert (c : List (String × AddressTransactionRow)) (k : String)
    (row : AddressTransactionRow) : List (String × AddressTransactionRow) :=
  (k, row) :: c.filter (fun p => p.1 ≠ k)

/-- `HashMap::get` on the transaction preview cache. -/
def cacheFind (c : List (String × AddressTransactionRow)) (k : String) :
    Option AddressTransactionRow :=
  (c.find? (fun p => p.1 == k)).map Prod.snd

/-- `LoadingState::set_loading` (mod.rs:1360-1371); the `started_at`
timestamp is real-time data and is not modelled. -/
def set_loading (a : AppModel) (pane : FocusedPane) (value : Bool) : AppModel :=
  match pane with
  | .top => { a with loading_top := value }
  | .sidebar => { a with loading_sidebar := value }
  | .mainView => { a with loading_main_view := value }
  | .bottomBar | .modal => a

/-- `App::show_status` = `TopCommand::ShowStatus` (top.rs:197-201). -/
def show_status (a : AppModel) (message : String) : AppModel :=
  { a with top_status := some message, search_active := false, pending_search := false }

/-- `App::close_modal` (mod.rs:819-822). -/
def close_modal (a : AppModel) : AppModel :=
  { a with secrets_modal_open := false,
           navigation := a.navigation.restore_focus_after_modal }

/-- `App::start_address_hydration` (mod.rs:843-860): clear the shown
address, mark the main view loading, show a status line.  The spawned
background task itself does not touch application state. -/
def start_address_hydration (a : AppModel) (addr : AddressRef) : AppModel :=
  let a := { a with current_address := none, loading_main_view := true }
  show_status a ("Fetching latest activity for " ++ shortHex addr.address)

/-- `App::start_transaction_hydration` (mod.rs:862-932), state effects
only: clear the shown transaction, mark loading, show a status line and
re-insert the preview row into the cache when one exists. -/
def start_transaction_hydration (a : AppModel) (tx : TransactionRef)
    (preview : Option AddressTransactionRow) : AppModel :=
  let a := { a with current_transaction := none, loading_main_view := true }
  let a := show_status a ("Loading transaction " ++ shortHex tx.hash)
  match preview with
  | some row =>
    { a with transaction_preview_cache := cacheInsert a.transaction_preview_cache row.hash row }
  | none => a

/-- `App::start_hydration` (mod.rs:830-841). -/
def start_hydration (a : AppModel) (e : SelectedEntity) : AppModel :=
  match e with
  | .address addr => start_address_hydration a addr
  | .transaction tx =>
    let preview := a.pending_transaction_preview
    let a := { a with pending_transaction_preview := none }
    let preview :=
      match preview with
      | some p => some p
      | none => cacheFind a.transaction_preview_cache tx.hash
    start_transaction_hydration a tx preview

/-- `App::dispatch` (mod.rs:711-741). -/
def dispatch (a : AppModel) : Action → AppModel
  | .quit => { a with running := false }
  | .focusPane pane => { a with navigation := a.navigation.focus_pane pane }
  | .focusNextPane => { a with navigation := a.navigation.focus_next }
  | .focusPreviousPane => { a with navigation := a.navigation.focus_previous }
  | .selectionChanged entity =>
    let a := { a with selected := some entity, search_error := none }
    let a :=
      match entity with
      | .address _ =>
        { a with atv_selected_index := 0,
                 navigation := { a.navigation with
                                 main_view_mode := .address
                                 main_view_tab := .addressInfo } }
      | .transaction _ =>
        { a with navigation := { a.navigation with
                                 main_view_mode := .transaction
                                 main_view_tab := .transactionSummary } }
    start_hydration a entity
  | .loadingStarted pane => set_loading a pane true
  | .loadingFinished pane => set_loading a pane false
  | .closeModal => close_modal a
  | .secretsSaved => show_status (close_modal a) "Secrets updated"

/-- `App::sidebar_command` (mod.rs:775-786): run the sidebar update and
dispatch the action it returns, if any. -/
def sidebar_command (a : AppModel) (cmd : SidebarCommand) : AppModel :=
  let (sb, tab, action) := a.sidebar.update a.navigation.sidebar_tab cmd
  let a := { a with sidebar := sb, navigation := { a.navigation with sidebar_tab := tab } }
  match action with
  | some act => dispatch a act
  | none => a

/-- `App::toggle_favorite` (mod.rs:934-990).  `storeOk` is the outcome
of the persisted-store call (`remove`/`upsert`); when it fails, the `?`
operator returns before any in-memory mutation, which the `.error` arm
records by carrying the state reached at that point. -/
def toggle_favorite (storeOk : Bool) (a : AppModel) : Except AppModel AppModel :=
  match a.selected with
  | none => .ok a
  | some sel =>
    match sel with
    | .address addr =>
      let key := addr.address
      if key ∈ a.favorite_addresses then
        if storeOk then
          let a := { a with store_addresses := favRemove a.store_addresses key }
          let a := { a with favorite_addresses := setRemove a.favorite_addresses key }
          let a := sidebar_command a (.removeFavorite sel)
          .ok (show_status a ("Removed " ++ shortHex addr.address ++ " from favorites"))
        else .error a
      else
        if storeOk then
          let record : FavoriteRecord :=
            { label := some addr.label, identifier := addr.address, chain := addr.chain }
          let a := { a with store_addresses := favUpsert a.store_addresses record }
          let a := { a with favorite_addresses := setInsert a.favorite_addresses key }
          let a := sidebar_command a (.addFavorite sel)
          .ok (show_status a ("Favorited " ++ shortHex addr.address))
        else .error a
    | .transaction tx =>
      let key := tx.hash
      if key ∈ a.favorite_transactions then
        if storeOk then
          let a := { a with store_transactions := favRemove a.store_transactions key }
          let a := { a with favorite_transactions := setRemove a.favorite_transactions key }
          let a := sidebar_command a (.removeFavorite sel)
          .ok (show_status a ("Removed " ++ shortHex tx.hash ++ " from favorites"))
        else .error a
      else
        if storeOk then
          let record : FavoriteRecord :=
            { label := some tx.label, identifier := tx.hash, chain := tx.chain }
          let a := { a with store_transactions := favUpsert a.store_transactions record }
          let a := { a with favorite_transactions := setInsert a.favorite_transactions key }
          let a := sidebar_command a (.addFavorite sel)
          .ok (show_status a ("Favorited " ++ shortHex tx.hash))
        else .error a

/-! ### Messages and the drain step (mod.rs:1415-1427, 1060-1135) -/

inductive Message where
  | searchCompleted (query : String) (entity : SelectedEntity)
  | searchFailed (query : String) (error : String)
  | addressHydrated (data : HydratedAddress)
  | transactionHydrated (data : HydratedTransaction)
deriving DecidableEq, Repr

/-- `TopCommand::SearchCompleted` (top.rs:177-192); the settings write
of the last query is modelled as always succeeding. -/
def top_search_completed (a : AppModel) (query : String) (entity : SelectedEntity) :
    AppModel :=
  let status :=
    match entity with
    | .address addr => "Loaded address " ++ shortHex addr.address
    | .transaction tx => "Loaded transaction " ++ shortHex tx.hash
  { a with pending_search := false
           top_status := some status
           search_value := query
           search_active := false
           settings := ("top:last_query", query) :: a.settings.filter (fun p => p.1 ≠ "top:last_query") }

/-- `TopCommand::SearchFailed` (top.rs:193-196). -/
def top_search_failed (a : AppModel) (query : String) (error : String) : AppModel :=
  { a with pending_search := false
           top_status := some ("Failed to load " ++ shortHex query ++ ": " ++ error) }

/-- The status line chosen when a matching `AddressHydrated` result is
applied (mod.rs:1088-1108); `format_units(_, "ether")` cannot fail. -/
def hydrated_status_message (data : HydratedAddress) : String :=
  let fromOverview :=
    data.overview.map (fun ov =>
      "Balance: " ++ String.mk (formatUnitsEther ov.balance_wei) ++ " ETH")
  let fromInfo :=
    data.info.find? (fun line =>
      strContains line "Balance" || strContains line "Failed" ||
      strContains line "Account query" || strContains line "Configure an Anvil")
  (((fromOverview).orElse (fun _ => fromInfo)).orElse (fun _ => data.info.head?)).getD
    "No account data available."

/-- `AddressTransactionsViewState::clamp` (mod.rs:1273-1279). -/
def clampIndex (idx len : Nat) : Nat :=
  if len = 0 then 0 else if idx ≥ len then len - 1 else idx

/-- One iteration of the `while let Ok(message) = try_recv()` loop in
`App::drain_messages` (mod.rs:1060-1135). -/
def drain_one (a : AppModel) : Message → AppModel
  | .searchCompleted query entity =>
    let a := top_search_completed a query entity
    let a := dispatch a (.loadingFinished .top)
    let a := dispatch a (.selectionChanged entity)
    dispatch a (.focusPane .mainView)
  | .searchFailed query error =>
    let a := top_search_failed a query error
    let a := dispatch a (.loadingFinished .top)
    { a with search_error := some error }
  | .addressHydrated data =>
    match a.selected with
    | some (.address addr) =>
      if addr.address = data.identifier then
        let cached_rows := data.transactions_table.map (fun table => table.rows)
        let status_message := hydrated_status_message data
        let row_count := (cached_rows.map (fun rows => rows.length)).getD 0
        let a := { a with current_address := some data }
        let a := { a with atv_selected_index := clampIndex a.atv_selected_index row_count }
        let a :=
          match cached_rows with
          | some rows =>
            { a with transaction_preview_cache :=
                rows.foldl (fun c row => cacheInsert c row.hash row) a.transaction_preview_cache }
          | none => a
        let a := show_status a status_message
        dispatch a (.loadingFinished .mainView)
      else a
    | _ => a
  | .transactionHydrated data =>
    match a.selected with
    | some (.transaction tx) =>
      if tx.hash = data.identifier then
        let a := { a with current_transaction := some data }
        dispatch a (.loadingFinished .mainView)
      else a
    | _ => a

/-- The full drain: messages are consumed in arrival order until the
channel is empty. -/
def drain_messages (a : AppModel) (msgs : List Message) : AppModel :=
  msgs.foldl drain_one a

/-! ### Main-loop step order (mod.rs:367-375, 992-1059)

`App::run` loops `tick(); draw(render); handle_events()` while
`running`; `App::tick` ticks the five stateful components (top bar,
sidebar, main view, bottom bar, modal) and then calls
`drain_messages`; `handle_events` is the bounded 50 ms input poll. -/

inductive LoopStep where
  | tickComponents
  | drain
  | render
  | poll
deriving DecidableEq, Repr

/-- Step order of `App::tick` (mod.rs:992-1059): component ticks, then
the message drain. -/
def tick_trace : List LoopStep := [LoopStep.tickComponents, LoopStep.drain]

/-- Step order of one iteration of `App::run` (mod.rs:369-373):
`self.tick()?`, then `terminal.draw(render)`, then
`self.handle_events()?`. -/
def run_iteration_trace : List LoopStep :=
  tick_trace ++ [LoopStep.render] ++ [LoopStep.poll]

/-- Modelled from the spec: §4.5 prescribes the per-iteration order
(1) tick, (2) render, (3) poll input, (4) drain. -/
def spec_iteration_trace : List LoopStep :=
  [LoopStep.tickComponents, LoopStep.render, LoopStep.poll, LoopStep.drain]

/-! ### Shared concrete states for witnesses and counterexamples -/

/-- A fresh application state: the field values of
`AppState::default()` with empty stores and an empty sidebar. -/
def blankModel : AppModel :=
  { running := true
    navigation := NavigationState.default
    loading_top := false
    loading_sidebar := false
    loading_main_view := false
    selected := none
    search_error := none
    favorite_addresses := []
    favorite_transactions := []
    current_address := none
    current_transaction := none
    atv_selected_index := 0
    pending_transaction_preview := none
    transaction_preview_cache := []
    sidebar := { addresses := [], transactions := [], selected_index := 0 }
    top_status := none
    search_active := false
    pending_search := false
    search_value := ""
    secrets_modal_open := false
    store_addresses := []
    store_transactions := []
    settings := [] }

/-- A hydration result with no optional payload, as produced for an
address whose fetches all degraded. -/
def bareHydratedAddress (ident : String) : HydratedAddress :=
  { identifier := ident
    info := []
    transactions := []
    transactions_table := none
    internal := []
    balances := []
    permissions := []
    overview := none }

/-- A bare transaction hydration result (the not-cached shape). -/
def bareHydratedTransaction (ident : String) : HydratedTransaction :=
  { identifier := ident
    summary := []
    debug_lines := []
    storage_diff := []
    sender := none
    toAddr := none
    value_formatted := none
    calldata := none
    block_number := none
    status := none }

/-- The invariant of C9. -/
def navReturnFocusInv (s : NavigationState) : Prop :=
  s.modal_return_focus ≠ FocusedPane.modal

instance (s : NavigationState) : Decidable (navReturnFocusInv s) := by
  unfold navReturnFocusInv; infer_instance

/-- The `NavigationState` operations reachable from `App` dispatch and
the modal flow. -/
inductive NavOp where
  | focusPane (p : FocusedPane)
  | focusModal
  | restoreFocusAfterModal
  | focusNext
  | focusPrevious
deriving DecidableEq, Repr, Fintype

def applyNavOp (s : NavigationState) : NavOp → NavigationState
  | .focusPane p => s.focus_pane p
  | .focusModal => s.focus_modal
  | .restoreFocusAfterModal => s.restore_focus_after_modal
  | .focusNext => s.focus_next
  | .focusPrevious => s.focus_previous

/-- No two sidebar entries share an identifier. -/
def sidebarNodup (sb : Sidebar) : Prop :=
  (sb.addresses.map (fun a => a.address)).Nodup ∧
  (sb.transactions.map (fun t => t.hash)).Nodup

/-- The favorites mutations among the sidebar commands. -/
def favoriteCommand : SidebarCommand → Prop
  | .addFavorite _ => True
  | .removeFavorite _ => True
  | _ => False

instance (c : SidebarCommand) : Decidable (favoriteCommand c) := by
  cases c
  case addFavorite e => exact inferInstanceAs (Decidable True)
  case removeFavorite e => exact inferInstanceAs (Decidable True)
  all_goals exact inferInstanceAs (Decidable False)

instance (sb : Sidebar) : Decidable (sidebarNodup sb) := by
  unfold sidebarNodup; infer_instance

def applySidebarCommands (sb : Sidebar) (tab : SidebarTab) (cmds : List SidebarCommand) :
    Sidebar × SidebarTab :=
  cmds.foldl (fun st c =>
    let r := (st.1).update st.2 c
    (r.1, r.2.1)) (sb, tab)

def failClosedModel : AppModel :=
  { blankModel with
      selected := some (.address { label := "A", address := "0xA", chain := "Mainnet" })
      favorite_addresses := ["0xA"]
      store_addresses :=
        [("0xA", { label := some "A", identifier := "0xA", chain := "Mainnet" })] }

/-- A raw entry with no recipient whose sender is not the target. -/
def noRecipientTx : AddressTransaction :=
  { hash := "0xh1", block_number := 1, sender := "0xBBB", toAddr := none,
    value_wei := 0, is_error := false, input := none }

/-- A raw entry with no recipient sent by the target itself. -/
def creationTx : AddressTransaction :=
  { hash := "0xh2", block_number := 1, sender := "0xAAA", toAddr := none,
    value_wei := 0, is_error := false, input := none }

/-- A zero-value transfer sent by the target. -/
def zeroValueTx : AddressTransaction :=
  { hash := "0xh3", block_number := 1, sender := "0xAAA", toAddr := some "0xBBB",
    value_wei := 0, is_error := false, input := none }

/-- The staleness test of the claim, as the drain step decides it for
`AddressHydrated` results: the selected entity is an address whose raw
string equals the result identifier. -/
def selMatchesAddress (sel : Option SelectedEntity) (ident : String) : Bool :=
  match sel with
  | some (.address addr) => addr.address == ident
  | _ => false

/-- Staleness test for `TransactionHydrated` results. -/
def selMatchesTransaction (sel : Option SelectedEntity) (ident : String) : Bool :=
  match sel with
  | some (.transaction tx) => tx.hash == ident
  | _ => false

/-- Two consecutive `toggle_favorite` calls with the persisted store
succeeding both times. -/
def toggle_twice (a : AppModel) : Except AppModel AppModel :=
  (toggle_favorite true a).bind (toggle_favorite true)

/-- Favorites membership after a successful double toggle. -/
def favAfterDoubleToggle (a : AppModel) : Option (List String) :=
  match toggle_twice a with
  | .ok x => some x.favorite_addresses
  | .error _ => none

/-- Persisted address store after a successful double toggle. -/
def storeAfterDoubleToggle (a : AppModel) : Option FavStore :=
  match toggle_twice a with
  | .ok x => some x.store_addresses
  | .error _ => none

/-- Favorites membership after one successful toggle. -/
def favAfterToggle (a : AppModel) : Option (List String) :=
  match toggle_favorite true a with
  | .ok x => some x.favorite_addresses
  | .error _ => none

/-- A state in which entity `B` is selected while a result for the
different identifier `0xA` is still in flight. -/
def staleDrainModel : AppModel :=
  { blankModel with selected := some (.address { label := "B", address := "0xB", chain := "Mainnet" }) }

/-- A state whose selected address differs from an arriving result's
identifier only in letter case. -/
def caseDrainModel : AppModel :=
  { blankModel with selected := some (.address { label := "A", address := "0xAB", chain := "Mainnet" }) }

/-- A state whose favorites contain the selected address in different
letter case. -/
def caseFavModel : AppModel :=
  { blankModel with
      selected := some (.address { label := "A", address := "0xAB", chain := "Mainnet" })
      favorite_addresses := ["0xab"]
      store_addresses := [("0xab", { label := some "A", identifier := "0xab", chain := "Mainnet" })] }

/-- Two favorited addresses shown on the sidebar's address tab, with
the first one selected: removing it makes the sidebar re-select the
second. -/
def reselectionModel : AppModel :=
  { blankModel with
      selected := some (.address { label := "A", address := "0xA", chain := "Mainnet" })
      favorite_addresses := ["0xA", "0xB"]
      store_addresses :=
        [("0xA", { label := some "A", identifier := "0xA", chain := "Mainnet" }),
         ("0xB", { label := some "B", identifier := "0xB", chain := "Mainnet" })]
      sidebar :=
        { addresses :=
            [{ label := "A", address := "0xA", chain := "Mainnet" },
             { label := "B", address := "0xB", chain := "Mainnet" }]
          transactions := []
          selected_index := 0 } }

/-- A favorited address whose persisted record has no label, selected
under a different display label; the sidebar shows the transactions
tab, so no reselection interferes. -/
def labelModel : AppModel :=
  { blankModel with
      selected := some (.address { label := "fancy", address := "0xA", chain := "Mainnet" })
      favorite_addresses := ["0xA"]
      store_addresses := [("0xA", { label := none, identifier := "0xA", chain := "Mainnet" })]
      navigation := { NavigationState.default with sidebar_tab := SidebarTab.transactions } }

/-- A favorited address selected with the sidebar on the transactions
tab and a persisted record equal to the one the toggle would write:
the clean double-toggle setting. -/
def cleanToggleModel : AppModel :=
  { blankModel with
      selected := some (.address { label := "A", address := "0xA", chain := "Mainnet" })
      favorite_addresses := ["0xA"]
      store_addresses := [("0xA", { label := some "A", identifier := "0xA", chain := "Mainnet" })]
      navigation := { NavigationState.default with sidebar_tab := SidebarTab.transactions } }

/-! ### C6 — main-view tab next/previous are mutual inverses -/

/-- C6: for every main-view tab `t` and mode `m`,
`previous (next t m) m = normalize t m`: within a fixed mode, `next`
and `previous` are mutual inverses up to normalization. -/
theorem C6_tab_next_previous_inverse :
    ∀ (t : MainViewTab) (m : MainViewMode),
      (t.next m).previous m = t.normalize m := by
  decide

/-! ### C9 — the remembered modal return focus is never Modal -/

/-- C9: the remembered modal return focus is never `Modal`: it holds in
the initial state, is preserved by every navigation operation (hence by
every sequence of them, covering repeated modal opens), and therefore
`restore_focus_after_modal` always lands on a non-Modal pane. -/
theorem C9_modal_return_focus_invariant :
    navReturnFocusInv NavigationState.default ∧
    (∀ (s : NavigationState) (op : NavOp),
      navReturnFocusInv s → navReturnFocusInv (applyNavOp s op)) ∧
    (∀ ops : List NavOp,
      navReturnFocusInv (ops.foldl applyNavOp NavigationState.default)) ∧
    (∀ s : NavigationState, navReturnFocusInv s →
      (s.restore_focus_after_modal).focused_pane ≠ FocusedPane.modal) := by
  have hinit : navReturnFocusInv NavigationState.default := by decide
  have hmodal : ∀ s : NavigationState,
      navReturnFocusInv s → navReturnFocusInv s.focus_modal := by
    intro s h
    unfold NavigationState.focus_modal
    split
    next hne => exact hne
    next hne => exact h
  have hpane : ∀ (s : NavigationState) (p : FocusedPane),
      navReturnFocusInv s → navReturnFocusInv (s.focus_pane p) := by
    intro s p h
    cases p
    case modal => exact hmodal s h
    all_goals intro hc; cases hc
  have hstep : ∀ (s : NavigationState) (op : NavOp),
      navReturnFocusInv s → navReturnFocusInv (applyNavOp s op) := by
    intro s op h
    cases op with
    | focusPane p => exact hpane s p h
    | focusModal => exact hmodal s h
    | restoreFocusAfterModal => exact h
    | focusNext => exact hpane s _ h
    | focusPrevious => exact hpane s _ h
  have hfold : ∀ (ops : List NavOp) (s : NavigationState), navReturnFocusInv s →
      navReturnFocusInv (ops.foldl applyNavOp s) := by
    intro ops
    induction ops with
    | nil => intro s hs; exact hs
    | cons op rest ih => intro s hs; exact ih _ (hstep s op hs)
  refine ⟨hinit, hstep, fun ops => hfold ops _ hinit, ?_⟩
  intro s h
  exact h

/-- Witness for C9: the preservation and restore clauses applied at a
concrete state and operation sequence. -/
theorem C9_modal_return_focus_invariant_witness :
    navReturnFocusInv (applyNavOp NavigationState.default NavOp.focusModal) ∧
    ((NavigationState.default.focus_modal).restore_focus_after_modal).focused_pane
      ≠ FocusedPane.modal :=
  ⟨C9_modal_return_focus_invariant.2.1 NavigationState.default NavOp.focusModal
      (by decide),
    C9_modal_return_focus_invariant.2.2.2 NavigationState.default.focus_modal
      (by decide)⟩

/-! ### C10 — sidebar display lists stay duplicate-free -/

theorem clamp_selection_addresses (sb : Sidebar) (tab : SidebarTab) :
    (sb.clamp_selection tab).addresses = sb.addresses := by
  unfold Sidebar.clamp_selection
  dsimp only
  split
  · rfl
  · split
    · rfl
    · rfl

theorem clamp_selection_transactions (sb : Sidebar) (tab : SidebarTab) :
    (sb.clamp_selection tab).transactions = sb.transactions := by
  unfold Sidebar.clamp_selection
  dsimp only
  split
  · rfl
  · split
    · rfl
    · rfl

/-- `AddFavorite` for an address: inserted at the front exactly when no
entry with that address is present. -/
theorem update_add_address (sb : Sidebar) (tab : SidebarTab) (addr : AddressRef) :
    ((sb.update tab (.addFavorite (.address addr))).1).addresses
      = (if sb.addresses.any (fun a => a.address == addr.address) then sb.addresses
         else addr :: sb.addresses) := by
  unfold Sidebar.update
  cases hany : sb.addresses.any (fun a => a.address == addr.address) <;>
    simp only [hany, Bool.not_true, Bool.not_false, if_true, if_false, Bool.false_eq_true] <;>
    split <;>
    simp_all [clamp_selection_addresses] <;>
    split <;>
    simp_all [clamp_selection_addresses]

/-- `RemoveFavorite` for an address removes every entry with the
matching identifier. -/
theorem update_remove_address (sb : Sidebar) (tab : SidebarTab) (addr : AddressRef) :
    ((sb.update tab (.removeFavorite (.address addr))).1).addresses
      = sb.addresses.filter (fun a => a.address ≠ addr.address) := by
  unfold Sidebar.update
  cases hany : sb.addresses.any (fun a => a.address == addr.address) <;>
    simp only [hany, if_true, if_false, Bool.false_eq_true] <;>
    [skip; skip] <;>
    first
    | (rw [List.filter_eq_self.2 ?_]
       · split <;> simp_all [clamp_selection_addresses] <;>
           split <;> simp_all [clamp_selection_addresses]
       · intro a ha
         have := List.any_eq_false.1 hany a ha
         simpa using this)
    | (split <;> simp_all [clamp_selection_addresses] <;>
         split <;> simp_all [clamp_selection_addresses])

/-- `AddFavorite` for a transaction. -/
theorem update_add_transaction (sb : Sidebar) (tab : SidebarTab) (tx : TransactionRef) :
    ((sb.update tab (.addFavorite (.transaction tx))).1).transactions
      = (if sb.transactions.any (fun t => t.hash == tx.hash) then sb.transactions
         else tx :: sb.transactions) := by
  unfold Sidebar.update
  cases hany : sb.transactions.any (fun t => t.hash == tx.hash) <;>
    simp only [hany, Bool.not_true, Bool.not_false, if_true, if_false, Bool.false_eq_true] <;>
    split <;>
    simp_all [clamp_selection_transactions] <;>
    split <;>
    simp_all [clamp_selection_transactions]

/-- `RemoveFavorite` for a transaction. -/
theorem update_remove_transaction (sb : Sidebar) (tab : SidebarTab) (tx : TransactionRef) :
    ((sb.update tab (.removeFavorite (.transaction tx))).1).transactions
      = sb.transactions.filter (fun t => t.hash ≠ tx.hash) := by
  unfold Sidebar.update
  cases hany : sb.transactions.any (fun t => t.hash == tx.hash) <;>
    simp only [hany, if_true, if_false, Bool.false_eq_true] <;>
    [skip; skip] <;>
    first
    | (rw [List.filter_eq_self.2 ?_]
       · split <;> simp_all [clamp_selection_transactions] <;>
           split <;> simp_all [clamp_selection_transactions]
       · intro t ht
         have := List.any_eq_false.1 hany t ht
         simpa using this)
    | (split <;> simp_all [clamp_selection_transactions] <;>
         split <;> simp_all [clamp_selection_transactions])

/-- Favorite mutations never touch the other entity kind's list. -/
theorem update_add_address_transactions (sb : Sidebar) (tab : SidebarTab) (addr : AddressRef) :
    ((sb.update tab (.addFavorite (.address addr))).1).transactions = sb.transactions := by
  unfold Sidebar.update
  cases hany : sb.addresses.any (fun a => a.address == addr.address) <;>
    simp only [hany, Bool.not_true, Bool.not_false, if_true, if_false, Bool.false_eq_true] <;>
    split <;>
    simp_all [clamp_selection_transactions] <;>
    split <;>
    simp_all [clamp_selection_transactions]

theorem update_remove_address_transactions (sb : Sidebar) (tab : SidebarTab) (addr : AddressRef) :
    ((sb.update tab (.removeFavorite (.address addr))).1).transactions = sb.transactions := by
  unfold Sidebar.update
  cases hany : sb.addresses.any (fun a => a.address == addr.address) <;>
    simp only [hany, if_true, if_false, Bool.false_eq_true] <;>
    split <;>
    simp_all [clamp_selection_transactions] <;>
    split <;>
    simp_all [clamp_selection_transactions]

theorem update_add_transaction_addresses (sb : Sidebar) (tab : SidebarTab) (tx : TransactionRef) :
    ((sb.update tab (.addFavorite (.transaction tx))).1).addresses = sb.addresses := by
  unfold Sidebar.update
  cases hany : sb.transactions.any (fun t => t.hash == tx.hash) <;>
    simp only [hany, Bool.not_true, Bool.not_false, if_true, if_false, Bool.false_eq_true] <;>
    split <;>
    simp_all [clamp_selection_addresses] <;>
    split <;>
    simp_all [clamp_selection_addresses]

theorem update_remove_transaction_addresses (sb : Sidebar) (tab : SidebarTab) (tx : TransactionRef) :
    ((sb.update tab (.removeFavorite (.transaction tx))).1).addresses = sb.addresses := by
  unfold Sidebar.update
  cases hany : sb.transactions.any (fun t => t.hash == tx.hash) <;>
    simp only [hany, if_true, if_false, Bool.false_eq_true] <;>
    split <;>
    simp_all [clamp_selection_addresses] <;>
    split <;>
    simp_all [clamp_selection_addresses]

theorem sidebarNodup_step (sb : Sidebar) (tab : SidebarTab) (cmd : SidebarCommand)
    (hc : favoriteCommand cmd) (h : sidebarNodup sb) :
    sidebarNodup ((sb.update tab cmd).1) := by
  cases cmd with
  | addFavorite e =>
    cases e with
    | address addr =>
      refine ⟨?_, by rw [update_add_address_transactions]; exact h.2⟩
      rw [update_add_address]
      cases hany : sb.addresses.any (fun a => a.address == addr.address) with
      | true => simpa using h.1
      | false =>
        simp only [Bool.false_eq_true, if_false, List.map_cons]
        refine List.nodup_cons.2 ⟨?_, h.1⟩
        intro hmem
        rcases List.mem_map.1 hmem with ⟨a, ha, haeq⟩
        have hne := List.any_eq_false.1 hany a ha
        simp [haeq] at hne
    | transaction tx =>
      refine ⟨by rw [update_add_transaction_addresses]; exact h.1, ?_⟩
      rw [update_add_transaction]
      cases hany : sb.transactions.any (fun t => t.hash == tx.hash) with
      | true => simpa using h.2
      | false =>
        simp only [Bool.false_eq_true, if_false, List.map_cons]
        refine List.nodup_cons.2 ⟨?_, h.2⟩
        intro hmem
        rcases List.mem_map.1 hmem with ⟨t, ht, hteq⟩
        have hne := List.any_eq_false.1 hany t ht
        simp [hteq] at hne
  | removeFavorite e =>
    cases e with
    | address addr =>
      refine ⟨?_, by rw [update_remove_address_transactions]; exact h.2⟩
      rw [update_remove_address]
      exact List.Nodup.sublist ((List.filter_sublist _).map _) h.1
    | transaction tx =>
      refine ⟨by rw [update_remove_transaction_addresses]; exact h.1, ?_⟩
      rw [update_remove_transaction]
      exact List.Nodup.sublist ((List.filter_sublist _).map _) h.2
  | moveUp => exact hc.elim
  | moveDown => exact hc.elim
  | nextTab => exact hc.elim
  | previousTab => exact hc.elim
  | selectIndex i => exact hc.elim
  | switchTab t => exact hc.elim
  | hydrationStarted => exact hc.elim
  | hydrationFinished => exact hc.elim

/-- C10: the sidebar display lists contain no two entries with the same
identifier: `AddFavorite` inserts at the front only when the identifier
is absent, `RemoveFavorite` removes every entry with the identifier,
and any sequence of these commands preserves duplicate-freedom of both
lists. -/
theorem C10_sidebar_lists_duplicate_free :
    (∀ (sb : Sidebar) (tab : SidebarTab) (addr : AddressRef),
      ((sb.update tab (.addFavorite (.address addr))).1).addresses
        = (if sb.addresses.any (fun a => a.address == addr.address) then sb.addresses
           else addr :: sb.addresses)) ∧
    (∀ (sb : Sidebar) (tab : SidebarTab) (addr : AddressRef),
      ((sb.update tab (.removeFavorite (.address addr))).1).addresses
        = sb.addresses.filter (fun a => a.address ≠ addr.address)) ∧
    (∀ (sb : Sidebar) (tab : SidebarTab) (tx : TransactionRef),
      ((sb.update tab (.addFavorite (.transaction tx))).1).transactions
        = (if sb.transactions.any (fun t => t.hash == tx.hash) then sb.transactions
           else tx :: sb.transactions)) ∧
    (∀ (sb : Sidebar) (tab : SidebarTab) (tx : TransactionRef),
      ((sb.update tab (.removeFavorite (.transaction tx))).1).transactions
        = sb.transactions.filter (fun t => t.hash ≠ tx.hash)) ∧
    (∀ (sb : Sidebar) (tab : SidebarTab) (cmds : List SidebarCommand),
      (∀ c ∈ cmds, favoriteCommand c) → sidebarNodup sb →
      sidebarNodup (applySidebarCommands sb tab cmds).1) := by
  refine ⟨update_add_address, update_remove_address, update_add_transaction,
    update_remove_transaction, ?_⟩
  intro sb tab cmds
  induction cmds generalizing sb tab with
  | nil => intro _ h; exact h
  | cons c rest ih =>
    intro hall h
    have hstep := sidebarNodup_step sb tab c (hall c (List.mem_cons_self c rest)) h
    simpa [applySidebarCommands] using
      ih _ _ (fun x hx => hall x (List.mem_cons_of_mem c hx)) hstep

/-- Witness for C10: duplicate-freedom maintained across a concrete
add/remove/add sequence from an initially duplicate-free sidebar. -/
theorem C10_sidebar_lists_duplicate_free_witness :
    sidebarNodup (applySidebarCommands
      { addresses := [{ label := "A", address := "0xA", chain := "Mainnet" }],
        transactions := [], selected_index := 0 }
      SidebarTab.addresses
      [SidebarCommand.addFavorite (.address { label := "B", address := "0xB", chain := "Mainnet" }),
       SidebarCommand.addFavorite (.address { label := "A2", address := "0xA", chain := "Mainnet" }),
       SidebarCommand.removeFavorite (.address { label := "A", address := "0xA", chain := "Mainnet" })]).1 :=
  C10_sidebar_lists_duplicate_free.2.2.2.2 _ _ _ (by decide) (by decide)

/-! ### C3 — favorites toggle is fail-closed -/

/-- C3: whenever an entity is selected and the persisted store's
`remove`/`upsert` call fails, `toggle_favorite` aborts before any
in-memory mutation: the error carries the application state exactly as
it was, so membership set, display list and persisted store are
unchanged and cannot diverge. -/
theorem C3_toggle_favorite_fail_closed :
    ∀ (a : AppModel) (e : SelectedEntity), a.selected = some e →
      toggle_favorite false a = Except.error a := by
  intro a e hsel
  unfold toggle_favorite
  rw [hsel]
  cases e with
  | address addr =>
    dsimp only
    split
    · rfl
    · rfl
  | transaction tx =>
    dsimp only
    split
    · rfl
    · rfl

/-- Witness for C3 at a concrete favorited selection. -/
theorem C3_toggle_favorite_fail_closed_witness :
    toggle_favorite false failClosedModel = Except.error failClosedModel :=
  C3_toggle_favorite_fail_closed failClosedModel
    (.address { label := "A", address := "0xA", chain := "Mainnet" }) rfl

/-! ### C5 — main-loop step order -/

/-- Counterexample to C5: the code's per-iteration step order is not
the spec's `tick, render, poll, drain` — `App::tick` ends with the
drain, so the drain precedes the render and the poll comes last. -/
theorem C5_loop_order_counterexample :
    run_iteration_trace ≠ spec_iteration_trace := by
  decide

/-- C5 (amended): every iteration performs component ticks, then the
non-blocking drain, then render, then the bounded input poll — in that
order — and the loop flag is cleared exactly by dispatching `Quit`. -/
theorem C5_loop_order_amended :
    run_iteration_trace
      = [LoopStep.tickComponents, LoopStep.drain, LoopStep.render, LoopStep.poll] ∧
    (∀ a : AppModel, (dispatch a Action.quit).running = false) ∧
    (∀ (a : AppModel) (act : Action), act ≠ Action.quit →
      (dispatch a act).running = a.running) := by
  refine ⟨rfl, fun a => rfl, ?_⟩
  intro a act h
  cases act with
  | quit => exact absurd rfl h
  | focusPane p => rfl
  | focusNextPane => rfl
  | focusPreviousPane => rfl
  | selectionChanged e =>
    cases e with
    | address addr => rfl
    | transaction tx =>
      unfold dispatch start_hydration start_transaction_hydration show_status
      dsimp only
      split
      · rfl
      · rfl
  | loadingStarted p => cases p <;> rfl
  | loadingFinished p => cases p <;> rfl
  | closeModal => rfl
  | secretsSaved => rfl

/-- Witness for C5 (amended): the running flag is untouched by a
non-Quit action at a concrete state. -/
theorem C5_loop_order_amended_witness :
    (dispatch blankModel Action.closeModal).running = blankModel.running :=
  C5_loop_order_amended.2.2 blankModel Action.closeModal (by decide)

/-! ### Digit-rendering facts used by C8 -/

theorem char_of_digit_not_sign (k : Nat) (h : k < 10) :
    ((Char.ofNat (48 + k) == '+') || (Char.ofNat (48 + k) == '-')) = false := by
  interval_cases k <;> decide

theorem decDigits_ne_nil (n : Nat) : decDigits n ≠ [] := by
  rw [decDigits]
  split
  · simp
  · simp

theorem decDigits_no_sign (n : Nat) :
    ∀ c ∈ decDigits n, ((c == '+') || (c == '-')) = false := by
  induction n using Nat.strong_induction_on with
  | _ n ih =>
    rw [decDigits]
    split
    case isTrue h =>
      intro c hc
      simp only [List.mem_singleton] at hc
      subst hc
      exact char_of_digit_not_sign n h
    case isFalse h =>
      intro c hc
      rcases List.mem_append.1 hc with h1 | h2
      · exact ih (n / 10) (Nat.div_lt_self (by omega) (by omega)) c h1
      · simp only [List.mem_singleton] at h2
        subst h2
        exact char_of_digit_not_sign (n % 10) (Nat.mod_lt _ (by omega))

theorem rstrip_zeros_front (s : List Char) :
    ((s.reverse.dropWhile (fun c => c == '0')).reverse) <+: s := by
  have h := List.dropWhile_suffix (l := s.reverse) (p := fun c => c == '0')
  have h2 := List.reverse_prefix.2 h
  simpa using h2

theorem trim_decimal_front (s : List Char) : trim_decimal s <+: s := by
  unfold trim_decimal
  split
  · dsimp only
    split
    · exact (List.dropLast_prefix _).trans (rstrip_zeros_front s)
    · exact rstrip_zeros_front s
  · exact List.prefix_refl s

theorem format_eth_value_no_sign (v : Nat) : hasSign (format_eth_value v) = false := by
  unfold format_eth_value
  split
  · decide
  · dsimp only
    split
    · decide
    case isFalse hne =>
      unfold hasSign
      have htne : trim_decimal (formatUnitsEther v) ≠ [] := by
        simpa [List.isEmpty_iff] using hne
      obtain ⟨c, cs, hct⟩ : ∃ c cs, trim_decimal (formatUnitsEther v) = c :: cs := by
        cases h : trim_decimal (formatUnitsEther v) with
        | nil => exact absurd h htne
        | cons c cs => exact ⟨c, cs, rfl⟩
      obtain ⟨r, hr⟩ := trim_decimal_front (formatUnitsEther v)
      have hhead : (formatUnitsEther v).head? = some c := by
        rw [← hr, hct]; rfl
      have hcmem : c ∈ decDigits (v / 10 ^ 18) := by
        have hne2 := decDigits_ne_nil (v / 10 ^ 18)
        unfold formatUnitsEther at hhead
        cases hdd : decDigits (v / 10 ^ 18) with
        | nil => exact absurd hdd hne2
        | cons d ds =>
          rw [hdd] at hhead
          simp only [List.cons_append, List.head?_cons, Option.some.injEq] at hhead
          rw [← hhead]
          exact List.mem_cons_self d ds
      have hns := decDigits_no_sign _ c hcmem
      rw [hct]
      simpa using hns

theorem format_eth_value_head_not_minus (v : Nat) :
    (format_eth_value v).data.head? ≠ some '-' := by
  intro hc
  have h := format_eth_value_no_sign v
  unfold hasSign at h
  rw [hc] at h
  simp at h

theorem format_eth_value_head_not_plus (v : Nat) :
    (format_eth_value v).data.head? ≠ some '+' := by
  intro hc
  have h := format_eth_value_no_sign v
  unfold hasSign at h
  rw [hc] at h
  simp at h

theorem hasSign_minus_append (s : String) : hasSign ("-" ++ s) = true := by
  unfold hasSign
  rw [String.data_append]
  rfl

theorem hasSign_plus_append (s : String) : hasSign ("+" ++ s) = true := by
  unfold hasSign
  rw [String.data_append]
  rfl

theorem head_minus_append (s : String) : ("-" ++ s).data.head? = some '-' := by
  rw [String.data_append]; rfl

theorem head_plus_append (s : String) : ("+" ++ s).data.head? = some '+' := by
  rw [String.data_append]; rfl

/-! ### C7 — counterparty rendering -/

/-- Counterexample to C7: for a raw entry with no recipient whose
sender is not the target (direction `Interaction`), the counterparty is
the shortened sender, not `"Contract creation"` — so "Contract
creation whenever `to` is absent, regardless of direction" fails. -/
theorem C7_counterparty_counterexample :
    noRecipientTx.toAddr = none ∧
    (from_transaction "0xAAA" noRecipientTx).direction = TransactionDirection.interaction ∧
    (from_transaction "0xAAA" noRecipientTx).counterparty ≠ "Contract creation" ∧
    (from_transaction "0xAAA" noRecipientTx).counterparty = shortHex noRecipientTx.sender := by
  decide

/-- C7 (amended): the counterparty is the other side in shortened form
(`"Self"` for self-transfers); when the raw entry has no recipient it is
`"Contract creation"` exactly for rows whose direction is `Outgoing`
(the target is the sender), and the shortened sender otherwise. -/
theorem C7_counterparty_amended :
    ∀ (target : String) (tx : AddressTransaction),
      (tx.toAddr = none →
        (from_transaction target tx).counterparty =
          (if (from_transaction target tx).direction = TransactionDirection.outgoing
           then "Contract creation" else shortHex tx.sender)) ∧
      (∀ r, tx.toAddr = some r →
        (from_transaction target tx).counterparty =
          (if (from_transaction target tx).direction = TransactionDirection.selfTransfer
           then "Self"
           else if (from_transaction target tx).direction = TransactionDirection.incoming
           then shortHex tx.sender
           else shortHex r)) := by
  intro target tx
  constructor
  · intro hto
    unfold from_transaction
    rw [hto]
    cases hsend : eqIgnoreAsciiCase tx.sender target <;> simp [hsend]
  · intro r hto
    unfold from_transaction
    rw [hto]
    cases hsend : eqIgnoreAsciiCase tx.sender target <;>
      cases hrec : eqIgnoreAsciiCase r target <;>
      simp [hsend, hrec]

/-- Witness for C7 (amended): a contract-creation row from the target
itself renders `"Contract creation"`, and an incoming transfer renders
the shortened sender. -/
theorem C7_counterparty_amended_witness :
    (from_transaction "0xAAA" creationTx).counterparty = "Contract creation" := by
  have h := (C7_counterparty_amended "0xAAA" creationTx).1 rfl
  rw [h]
  decide

/-! ### C8 — sign prefix on the displayed value -/

/-- Counterexample to C8: a zero-value outgoing transfer is rendered
without a sign, so "signed if and only if Incoming/Outgoing" fails. -/
theorem C8_sign_counterexample :
    (from_transaction "0xAAA" zeroValueTx).direction = TransactionDirection.outgoing ∧
    hasSign (from_transaction "0xAAA" zeroValueTx).value_display = false ∧
    (from_transaction "0xAAA" zeroValueTx).value_display = "0 ETH" := by
  decide

/-- C8 (amended): the displayed value carries a sign prefix if and only
if the value is nonzero and the direction is `Incoming` or `Outgoing`;
the prefix is `-` exactly for nonzero outgoing rows and `+` exactly for
nonzero incoming rows; `SelfTransfer` and `Interaction` rows are never
signed. -/
theorem C8_sign_amended :
    ∀ (target : String) (tx : AddressTransaction),
      (hasSign (from_transaction target tx).value_display = true
        ↔ tx.value_wei ≠ 0 ∧
          ((from_transaction target tx).direction = TransactionDirection.outgoing ∨
           (from_transaction target tx).direction = TransactionDirection.incoming)) ∧
      ((from_transaction target tx).value_display.data.head? = some '-'
        ↔ tx.value_wei ≠ 0 ∧
          (from_transaction target tx).direction = TransactionDirection.outgoing) ∧
      ((from_transaction target tx).value_display.data.head? = some '+'
        ↔ tx.value_wei ≠ 0 ∧
          (from_transaction target tx).direction = TransactionDirection.incoming) := by
  intro target tx
  unfold from_transaction
  dsimp only
  by_cases hv : tx.value_wei = 0
  · simp [hv, format_eth_value_no_sign, format_eth_value_head_not_minus,
      format_eth_value_head_not_plus]
  · cases hsend : eqIgnoreAsciiCase tx.sender target <;>
      cases hrec : (tx.toAddr.map (fun a => eqIgnoreAsciiCase a target)).getD false <;>
      simp [hsend, hrec, hv, format_eth_value_no_sign, format_eth_value_head_not_minus,
        format_eth_value_head_not_plus, hasSign_minus_append, hasSign_plus_append,
        head_minus_append, head_plus_append]

/-! ### C1 — staleness-checked drain -/

theorem dispatch_selectionChanged_selected (a : AppModel) (e : SelectedEntity) :
    (dispatch a (.selectionChanged e)).selected = some e := by
  cases e with
  | address addr => rfl
  | transaction tx =>
    unfold dispatch start_hydration start_transaction_hydration show_status
    dsimp only
    split
    · rfl
    · rfl

theorem drain_address_applied (a : AppModel) (data : HydratedAddress)
    (h : selMatchesAddress a.selected data.identifier = true) :
    (drain_one a (.addressHydrated data)).current_address = some data ∧
    (drain_one a (.addressHydrated data)).loading_main_view = false := by
  unfold selMatchesAddress at h
  unfold drain_one
  dsimp only
  cases hsel : a.selected with
  | none => rw [hsel] at h; cases h
  | some e =>
    cases e with
    | address addr =>
      rw [hsel] at h
      simp only [beq_iff_eq] at h
      dsimp only
      rw [if_pos h]
      cases htab : data.transactions_table with
      | none => exact ⟨rfl, rfl⟩
      | some table => exact ⟨rfl, rfl⟩
    | transaction tx => rw [hsel] at h; cases h

theorem drain_address_stale (a : AppModel) (data : HydratedAddress)
    (h : selMatchesAddress a.selected data.identifier = false) :
    drain_one a (.addressHydrated data) = a := by
  unfold selMatchesAddress at h
  unfold drain_one
  dsimp only
  cases hsel : a.selected with
  | none => rfl
  | some e =>
    cases e with
    | address addr =>
      rw [hsel] at h
      simp only [beq_eq_false_iff_ne, ne_eq] at h
      dsimp only
      rw [if_neg h]
    | transaction tx => rfl

theorem drain_transaction_applied (a : AppModel) (data : HydratedTransaction)
    (h : selMatchesTransaction a.selected data.identifier = true) :
    (drain_one a (.transactionHydrated data)).current_transaction = some data ∧
    (drain_one a (.transactionHydrated data)).loading_main_view = false := by
  unfold selMatchesTransaction at h
  unfold drain_one
  dsimp only
  cases hsel : a.selected with
  | none => rw [hsel] at h; cases h
  | some e =>
    cases e with
    | address addr => rw [hsel] at h; cases h
    | transaction tx =>
      rw [hsel] at h
      simp only [beq_iff_eq] at h
      dsimp only
      rw [if_pos h]
      exact ⟨rfl, rfl⟩

theorem drain_transaction_stale (a : AppModel) (data : HydratedTransaction)
    (h : selMatchesTransaction a.selected data.identifier = false) :
    drain_one a (.transactionHydrated data) = a := by
  unfold selMatchesTransaction at h
  unfold drain_one
  dsimp only
  cases hsel : a.selected with
  | none => rfl
  | some e =>
    cases e with
    | address addr => rfl
    | transaction tx =>
      rw [hsel] at h
      simp only [beq_eq_false_iff_ne, ne_eq] at h
      dsimp only
      rw [if_neg h]

/-- C1: a hydration result is applied to visible state (the shown data
set and the main-view loading flag cleared) if and only if, at drain
time, the selected entity is of the result's kind and its identifier
equals the result's identifier; otherwise the message leaves the state
entirely unchanged.  In particular after `SelectionChanged A` then
`SelectionChanged B`, draining a result whose identifier is not B's
leaves B selected and the state untouched. -/
theorem C1_drain_staleness :
    (∀ (a : AppModel) (data : HydratedAddress),
      selMatchesAddress a.selected data.identifier = true →
      (drain_one a (.addressHydrated data)).current_address = some data ∧
      (drain_one a (.addressHydrated data)).loading_main_view = false) ∧
    (∀ (a : AppModel) (data : HydratedAddress),
      selMatchesAddress a.selected data.identifier = false →
      drain_one a (.addressHydrated data) = a) ∧
    (∀ (a : AppModel) (data : HydratedTransaction),
      selMatchesTransaction a.selected data.identifier = true →
      (drain_one a (.transactionHydrated data)).current_transaction = some data ∧
      (drain_one a (.transactionHydrated data)).loading_main_view = false) ∧
    (∀ (a : AppModel) (data : HydratedTransaction),
      selMatchesTransaction a.selected data.identifier = false →
      drain_one a (.transactionHydrated data) = a) ∧
    (∀ (a : AppModel) (A B : SelectedEntity) (data : HydratedAddress),
      selMatchesAddress (some B) data.identifier = false →
      drain_one (dispatch (dispatch a (.selectionChanged A)) (.selectionChanged B))
          (.addressHydrated data)
        = dispatch (dispatch a (.selectionChanged A)) (.selectionChanged B) ∧
      (dispatch (dispatch a (.selectionChanged A)) (.selectionChanged B)).selected
        = some B) ∧
    (∀ (a : AppModel) (A B : SelectedEntity) (data : HydratedTransaction),
      selMatchesTransaction (some B) data.identifier = false →
      drain_one (dispatch (dispatch a (.selectionChanged A)) (.selectionChanged B))
          (.transactionHydrated data)
        = dispatch (dispatch a (.selectionChanged A)) (.selectionChanged B) ∧
      (dispatch (dispatch a (.selectionChanged A)) (.selectionChanged B)).selected
        = some B) := by
  refine ⟨drain_address_applied, drain_address_stale, drain_transaction_applied,
    drain_transaction_stale, ?_, ?_⟩
  · intro a A B data hB
    have hsel := dispatch_selectionChanged_selected (dispatch a (.selectionChanged A)) B
    refine ⟨?_, hsel⟩
    apply drain_address_stale
    rw [hsel]
    exact hB
  · intro a A B data hB
    have hsel := dispatch_selectionChanged_selected (dispatch a (.selectionChanged A)) B
    refine ⟨?_, hsel⟩
    apply drain_transaction_stale
    rw [hsel]
    exact hB

/-- Witness for C1: with `B` selected, a result for `0xA` is discarded
unchanged, and a matching result for `0xB` is applied. -/
theorem C1_drain_staleness_witness :
    drain_one staleDrainModel (.addressHydrated (bareHydratedAddress "0xA"))
      = staleDrainModel ∧
    (drain_one staleDrainModel (.addressHydrated (bareHydratedAddress "0xB"))).current_address
      = some (bareHydratedAddress "0xB") :=
  ⟨C1_drain_staleness.2.1 staleDrainModel (bareHydratedAddress "0xA") (by decide),
    (C1_drain_staleness.1 staleDrainModel (bareHydratedAddress "0xB") (by decide)).1⟩

/-! ### C2 — identity matching is exact, not case-insensitive -/

theorem show_status_favorite_addresses (a : AppModel) (m : String) :
    (show_status a m).favorite_addresses = a.favorite_addresses := rfl

theorem show_status_favorite_transactions (a : AppModel) (m : String) :
    (show_status a m).favorite_transactions = a.favorite_transactions := rfl

theorem dispatch_preserves_favorites (a : AppModel) (act : Action) :
    (dispatch a act).favorite_addresses = a.favorite_addresses ∧
    (dispatch a act).favorite_transactions = a.favorite_transactions ∧
    (dispatch a act).store_addresses = a.store_addresses ∧
    (dispatch a act).store_transactions = a.store_transactions := by
  cases act with
  | quit => exact ⟨rfl, rfl, rfl, rfl⟩
  | focusPane p => exact ⟨rfl, rfl, rfl, rfl⟩
  | focusNextPane => exact ⟨rfl, rfl, rfl, rfl⟩
  | focusPreviousPane => exact ⟨rfl, rfl, rfl, rfl⟩
  | selectionChanged e =>
    cases e with
    | address addr => exact ⟨rfl, rfl, rfl, rfl⟩
    | transaction tx =>
      unfold dispatch start_hydration start_transaction_hydration show_status
      dsimp only
      split
      · exact ⟨rfl, rfl, rfl, rfl⟩
      · exact ⟨rfl, rfl, rfl, rfl⟩
  | loadingStarted p => cases p <;> exact ⟨rfl, rfl, rfl, rfl⟩
  | loadingFinished p => cases p <;> exact ⟨rfl, rfl, rfl, rfl⟩
  | closeModal => exact ⟨rfl, rfl, rfl, rfl⟩
  | secretsSaved => exact ⟨rfl, rfl, rfl, rfl⟩

theorem sidebar_command_preserves_favorites (a : AppModel) (cmd : SidebarCommand) :
    (sidebar_command a cmd).favorite_addresses = a.favorite_addresses ∧
    (sidebar_command a cmd).favorite_transactions = a.favorite_transactions ∧
    (sidebar_command a cmd).store_addresses = a.store_addresses ∧
    (sidebar_command a cmd).store_transactions = a.store_transactions := by
  unfold sidebar_command
  rcases hupd : a.sidebar.update a.navigation.sidebar_tab cmd with ⟨sb, tab, act⟩
  dsimp only
  cases act with
  | none => exact ⟨rfl, rfl, rfl, rfl⟩
  | some act =>
    exact dispatch_preserves_favorites
      { a with sidebar := sb, navigation := { a.navigation with sidebar_tab := tab } } act

/-- Counterexample to C2: with address `0xAB` selected, a hydration
result for `0xab` (same address up to letter case) is discarded, not
applied; and with `0xab` a favorite, toggling selected `0xAB` inserts a
second entry instead of removing the case-variant one.  Matching is
exact, not case-insensitive. -/
theorem C2_case_insensitive_counterexample :
    eqIgnoreAsciiCase "0xAB" "0xab" = true ∧
    drain_one caseDrainModel (.addressHydrated (bareHydratedAddress "0xab"))
      = caseDrainModel ∧
    (drain_one caseDrainModel (.addressHydrated (bareHydratedAddress "0xab"))).current_address
      ≠ some (bareHydratedAddress "0xab") ∧
    "0xab" ∈ caseFavModel.favorite_addresses ∧
    favAfterToggle caseFavModel = some ["0xAB", "0xab"] := by
  decide

/-- C2 (amended): entity identity matching is by the raw address or
hash string compared for exact (case-sensitive) equality, both in the
hydration staleness check and in favorites membership: a result is
applied exactly when the strings are equal, and the toggle removes
exactly when the raw string is a member of the membership set. -/
theorem C2_exact_matching_amended :
    (∀ (a : AppModel) (data : HydratedAddress) (addr : AddressRef),
      a.selected = some (.address addr) →
      (addr.address = data.identifier →
        (drain_one a (.addressHydrated data)).current_address = some data) ∧
      (addr.address ≠ data.identifier → drain_one a (.addressHydrated data) = a)) ∧
    (∀ (a : AppModel) (addr : AddressRef),
      a.selected = some (.address addr) →
      (addr.address ∈ a.favorite_addresses →
        ∃ a', toggle_favorite true a = .ok a' ∧ addr.address ∉ a'.favorite_addresses) ∧
      (addr.address ∉ a.favorite_addresses →
        ∃ a', toggle_favorite true a = .ok a' ∧ addr.address ∈ a'.favorite_addresses)) := by
  constructor
  · intro a data addr hsel
    constructor
    · intro heq
      exact (drain_address_applied a data
        (by unfold selMatchesAddress; rw [hsel]; simp [heq])).1
    · intro hne
      exact drain_address_stale a data
        (by unfold selMatchesAddress; rw [hsel]; simp [hne])
  · intro a addr hsel
    constructor
    · intro hmem
      unfold toggle_favorite
      rw [hsel]
      dsimp only
      rw [if_pos hmem, if_pos rfl]
      refine ⟨_, rfl, ?_⟩
      rw [show_status_favorite_addresses,
        (sidebar_command_preserves_favorites _ _).1]
      simp [setRemove]
    · intro hmem
      unfold toggle_favorite
      rw [hsel]
      dsimp only
      rw [if_neg hmem, if_pos rfl]
      refine ⟨_, rfl, ?_⟩
      rw [show_status_favorite_addresses,
        (sidebar_command_preserves_favorites _ _).1]
      show addr.address ∈ setInsert a.favorite_addresses addr.address
      simp [setInsert, hmem]

/-- Witness for C2 (amended): exact-match application and exact-member
removal at concrete states. -/
theorem C2_exact_matching_amended_witness :
    (drain_one caseDrainModel (.addressHydrated (bareHydratedAddress "0xAB"))).current_address
      = some (bareHydratedAddress "0xAB") ∧
    drain_one caseDrainModel (.addressHydrated (bareHydratedAddress "0xab"))
      = caseDrainModel :=
  ⟨((C2_exact_matching_amended.1 caseDrainModel (bareHydratedAddress "0xAB")
      { label := "A", address := "0xAB", chain := "Mainnet" } rfl).1 rfl),
    ((C2_exact_matching_amended.1 caseDrainModel (bareHydratedAddress "0xab")
      { label := "A", address := "0xAB", chain := "Mainnet" } rfl).2 (by decide))⟩

/-! ### C4 — store and membership algebra -/

theorem favFind_eq_none_iff (st : FavStore) (k : String) :
    favFind st k = none ↔ ∀ p ∈ st, p.1 ≠ k := by
  induction st with
  | nil => simp [favFind]
  | cons p t ih =>
    unfold favFind
    by_cases hp : p.1 = k
    · simp [hp]
    · simp only [if_neg hp, ih, List.mem_cons]
      constructor
      · intro h q hq
        rcases hq with rfl | hq
        · exact hp
        · exact h q hq
      · intro h q hq
        exact h q (Or.inr hq)

theorem favFind_remove_self (st : FavStore) (k : String) :
    favFind (favRemove st k) k = none := by
  rw [favFind_eq_none_iff]
  intro p hp
  have hne := (List.mem_filter.1 hp).2
  simpa using hne

theorem favRemove_cons_drop (p : String × FavoriteRecord) (t : FavStore) (key : String)
    (hp : p.1 = key) : favRemove (p :: t) key = favRemove t key := by
  unfold favRemove
  exact List.filter_cons_of_neg (by simp [hp])

theorem favRemove_cons_keep (p : String × FavoriteRecord) (t : FavStore) (key : String)
    (hp : ¬ p.1 = key) : favRemove (p :: t) key = p :: favRemove t key := by
  unfold favRemove
  exact List.filter_cons_of_pos (by simp [hp])

theorem favFind_remove_other (st : FavStore) (key k : String) (hk : k ≠ key) :
    favFind (favRemove st key) k = favFind st k := by
  induction st with
  | nil => rfl
  | cons p t ih =>
    by_cases hp : p.1 = key
    · rw [favRemove_cons_drop p t key hp, ih]
      have hne : ¬ p.1 = k := by rw [hp]; exact fun hc => hk hc.symm
      simp only [favFind, if_neg hne]
    · rw [favRemove_cons_keep p t key hp]
      simp only [favFind]
      rw [ih]

theorem favFind_append (s t : FavStore) (k : String) :
    favFind (s ++ t) k =
      (match favFind s k with
       | some r => some r
       | none => favFind t k) := by
  induction s with
  | nil => simp [favFind]
  | cons p s ih =>
    rw [List.cons_append]
    simp only [favFind]
    by_cases hp : p.1 = k
    · rw [if_pos hp, if_pos hp]
    · rw [if_neg hp, if_neg hp]
      exact ih

theorem favStore_any_eq_false_of_find_none (st : FavStore) (k : String)
    (h : favFind st k = none) :
    st.any (fun p => p.1 == k) = false := by
  rw [favFind_eq_none_iff] at h
  apply List.any_eq_false.2
  intro p hp
  simpa using h p hp

/-- Removing the record for an identifier and upserting a record for
that same identifier leaves the denoted map unchanged, provided the
upserted record equals the removed one. -/
theorem favFind_upsert_after_remove (st : FavStore) (r : FavoriteRecord)
    (h : favFind st r.identifier = some r) :
    ∀ k, favFind (favUpsert (favRemove st r.identifier) r) k = favFind st k := by
  intro k
  have hany : (favRemove st r.identifier).any (fun p => p.1 == r.identifier) = false :=
    favStore_any_eq_false_of_find_none _ _ (favFind_remove_self st r.identifier)
  unfold favUpsert
  rw [hany]
  simp only [Bool.false_eq_true, if_false]
  rw [favFind_append]
  by_cases hk : k = r.identifier
  · subst hk
    rw [favFind_remove_self st r.identifier]
    dsimp only
    simp only [favFind, if_true]
    exact h.symm
  · rw [favFind_remove_other st r.identifier k hk]
    cases hfound : favFind st k with
    | some q => rfl
    | none =>
      dsimp only
      simp only [favFind]
      rw [if_neg (fun hc => hk hc.symm)]

/-- Upserting an absent identifier and then removing it restores the
store exactly. -/
theorem favStore_remove_upsert (st : FavStore) (r : FavoriteRecord)
    (h : favFind st r.identifier = none) :
    favRemove (favUpsert st r) r.identifier = st := by
  have hany := favStore_any_eq_false_of_find_none st r.identifier h
  unfold favUpsert
  rw [hany]
  simp only [Bool.false_eq_true, if_false]
  unfold favRemove
  rw [List.filter_append]
  rw [favFind_eq_none_iff] at h
  have h1 : List.filter (fun p => decide (p.1 ≠ r.identifier)) st = st := by
    apply List.filter_eq_self.2
    intro p hp
    simpa using h p hp
  have h2 : List.filter (fun p => decide (p.1 ≠ r.identifier)) [(r.identifier, r)] = [] := by
    simp
  rw [h1, h2, List.append_nil]

theorem setRemove_not_mem (l : List String) (k : String) : k ∉ setRemove l k := by
  simp [setRemove]

theorem mem_setInsert_setRemove (l : List String) (k : String) (hk : k ∈ l) :
    ∀ x, x ∈ setInsert (setRemove l k) k ↔ x ∈ l := by
  intro x
  rw [setInsert, if_neg (setRemove_not_mem l k)]
  simp only [List.mem_cons, setRemove, List.mem_filter, decide_eq_true_eq]
  constructor
  · rintro (rfl | ⟨hx, _⟩)
    · exact hk
    · exact hx
  · intro hx
    by_cases hxk : x = k
    · exact Or.inl hxk
    · exact Or.inr ⟨hx, hxk⟩

theorem setRemove_setInsert (l : List String) (k : String) (hk : k ∉ l) :
    setRemove (setInsert l k) k = l := by
  rw [setInsert, if_neg hk]
  unfold setRemove
  rw [List.filter_cons_of_neg (by simp)]
  apply List.filter_eq_self.2
  intro x hx
  have : x ≠ k := fun hc => hk (hc ▸ hx)
  simpa using this

/-! ### C4 — favorite commands do not move the selection when the
sidebar shows the other entity kind -/

theorem sidebar_update_addfav_address_other (sb : Sidebar) (addr : AddressRef)
    (tab : SidebarTab) (h : ¬ tab = SidebarTab.addresses) :
    ∃ sb', sb.update tab (.addFavorite (.address addr)) = (sb', tab, none) := by
  unfold Sidebar.update
  dsimp only
  cases hany : sb.addresses.any (fun a => a.address == addr.address) with
  | false =>
    simp only [hany, Bool.not_false, if_true, if_neg h]
    exact ⟨_, rfl⟩
  | true =>
    simp only [hany, Bool.not_true, Bool.false_eq_true, if_false, if_neg h]
    exact ⟨_, rfl⟩

theorem sidebar_update_remfav_address_other (sb : Sidebar) (addr : AddressRef)
    (tab : SidebarTab) (h : ¬ tab = SidebarTab.addresses) :
    ∃ sb', sb.update tab (.removeFavorite (.address addr)) = (sb', tab, none) := by
  unfold Sidebar.update
  dsimp only
  have hd : decide (tab = SidebarTab.addresses) = false := by simp [h]
  cases hany : sb.addresses.any (fun a => a.address == addr.address) with
  | false =>
    simp only [hany, Bool.false_eq_true, if_false, if_neg h]
    exact ⟨_, rfl⟩
  | true =>
    simp only [hany, if_true, hd, if_neg h, Bool.false_eq_true, if_false]
    exact ⟨_, rfl⟩

theorem sidebar_update_addfav_transaction_other (sb : Sidebar) (tx : TransactionRef)
    (tab : SidebarTab) (h : ¬ tab = SidebarTab.transactions) :
    ∃ sb', sb.update tab (.addFavorite (.transaction tx)) = (sb', tab, none) := by
  unfold Sidebar.update
  dsimp only
  cases hany : sb.transactions.any (fun t => t.hash == tx.hash) with
  | false =>
    simp only [hany, Bool.not_false, if_true, if_neg h]
    exact ⟨_, rfl⟩
  | true =>
    simp only [hany, Bool.not_true, Bool.false_eq_true, if_false, if_neg h]
    exact ⟨_, rfl⟩

theorem sidebar_update_remfav_transaction_other (sb : Sidebar) (tx : TransactionRef)
    (tab : SidebarTab) (h : ¬ tab = SidebarTab.transactions) :
    ∃ sb', sb.update tab (.removeFavorite (.transaction tx)) = (sb', tab, none) := by
  unfold Sidebar.update
  dsimp only
  have hd : decide (tab = SidebarTab.transactions) = false := by simp [h]
  cases hany : sb.transactions.any (fun t => t.hash == tx.hash) with
  | false =>
    simp only [hany, Bool.false_eq_true, if_false, if_neg h]
    exact ⟨_, rfl⟩
  | true =>
    simp only [hany, if_true, hd, if_neg h, Bool.false_eq_true, if_false]
    exact ⟨_, rfl⟩

theorem sidebar_command_favcmd_no_action (b : AppModel) (cmd : SidebarCommand)
    (h : ∃ sb', b.sidebar.update b.navigation.sidebar_tab cmd
      = (sb', b.navigation.sidebar_tab, none)) :
    ∃ sb', sidebar_command b cmd = { b with sidebar := sb' } := by
  obtain ⟨sb', hupd⟩ := h
  refine ⟨sb', ?_⟩
  unfold sidebar_command
  rw [hupd]

/-- What a successful `toggle_favorite` does to an address selection
when the sidebar shows the transactions tab: the store and the
membership set are updated by the branch the membership test chooses,
the sidebar list changes, a status line is shown — and nothing else,
in particular the selection and the navigation state are untouched. -/
theorem toggle_favorite_address_char (a : AppModel) (addr : AddressRef)
    (hsel : a.selected = some (.address addr))
    (htab : ¬ a.navigation.sidebar_tab = SidebarTab.addresses) :
    ∃ sb' msg, toggle_favorite true a = .ok
      { a with
          store_addresses :=
            (if addr.address ∈ a.favorite_addresses
             then favRemove a.store_addresses addr.address
             else favUpsert a.store_addresses
               { label := some addr.label, identifier := addr.address, chain := addr.chain })
          favorite_addresses :=
            (if addr.address ∈ a.favorite_addresses
             then setRemove a.favorite_addresses addr.address
             else setInsert a.favorite_addresses addr.address)
          sidebar := sb'
          top_status := some msg
          search_active := false
          pending_search := false } := by
  unfold toggle_favorite
  rw [hsel]
  dsimp only
  by_cases hmem : addr.address ∈ a.favorite_addresses
  · rw [if_pos hmem]
    obtain ⟨sb', hsc⟩ := sidebar_command_favcmd_no_action
      { a with selected := some (SelectedEntity.address addr)
               store_addresses := favRemove a.store_addresses addr.address
               favorite_addresses := setRemove a.favorite_addresses addr.address }
      (.removeFavorite (.address addr))
      (sidebar_update_remfav_address_other a.sidebar addr a.navigation.sidebar_tab htab)
    refine ⟨sb', "Removed " ++ shortHex addr.address ++ " from favorites", ?_⟩
    simp only [if_pos hmem]
    exact congrArg
      (fun s => (Except.ok
        (show_status s ("Removed " ++ shortHex addr.address ++ " from favorites"))
          : Except AppModel AppModel)) hsc
  · rw [if_neg hmem]
    obtain ⟨sb', hsc⟩ := sidebar_command_favcmd_no_action
      { a with selected := some (SelectedEntity.address addr)
               store_addresses := favUpsert a.store_addresses
                 { label := some addr.label, identifier := addr.address, chain := addr.chain }
               favorite_addresses := setInsert a.favorite_addresses addr.address }
      (.addFavorite (.address addr))
      (sidebar_update_addfav_address_other a.sidebar addr a.navigation.sidebar_tab htab)
    refine ⟨sb', "Favorited " ++ shortHex addr.address, ?_⟩
    simp only [if_neg hmem]
    exact congrArg
      (fun s => (Except.ok (show_status s ("Favorited " ++ shortHex addr.address))
          : Except AppModel AppModel)) hsc

/-- Transaction-selection analogue of `toggle_favorite_address_char`,
with the sidebar showing the addresses tab. -/
theorem toggle_favorite_transaction_char (a : AppModel) (tx : TransactionRef)
    (hsel : a.selected = some (.transaction tx))
    (htab : ¬ a.navigation.sidebar_tab = SidebarTab.transactions) :
    ∃ sb' msg, toggle_favorite true a = .ok
      { a with
          store_transactions :=
            (if tx.hash ∈ a.favorite_transactions
             then favRemove a.store_transactions tx.hash
             else favUpsert a.store_transactions
               { label := some tx.label, identifier := tx.hash, chain := tx.chain })
          favorite_transactions :=
            (if tx.hash ∈ a.favorite_transactions
             then setRemove a.favorite_transactions tx.hash
             else setInsert a.favorite_transactions tx.hash)
          sidebar := sb'
          top_status := some msg
          search_active := false
          pending_search := false } := by
  unfold toggle_favorite
  rw [hsel]
  dsimp only
  by_cases hmem : tx.hash ∈ a.favorite_transactions
  · rw [if_pos hmem]
    obtain ⟨sb', hsc⟩ := sidebar_command_favcmd_no_action
      { a with selected := some (SelectedEntity.transaction tx)
               store_transactions := favRemove a.store_transactions tx.hash
               favorite_transactions := setRemove a.favorite_transactions tx.hash }
      (.removeFavorite (.transaction tx))
      (sidebar_update_remfav_transaction_other a.sidebar tx a.navigation.sidebar_tab htab)
    refine ⟨sb', "Removed " ++ shortHex tx.hash ++ " from favorites", ?_⟩
    simp only [if_pos hmem]
    exact congrArg
      (fun s => (Except.ok
        (show_status s ("Removed " ++ shortHex tx.hash ++ " from favorites"))
          : Except AppModel AppModel)) hsc
  · rw [if_neg hmem]
    obtain ⟨sb', hsc⟩ := sidebar_command_favcmd_no_action
      { a with selected := some (SelectedEntity.transaction tx)
               store_transactions := favUpsert a.store_transactions
                 { label := some tx.label, identifier := tx.hash, chain := tx.chain }
               favorite_transactions := setInsert a.favorite_transactions tx.hash }
      (.addFavorite (.transaction tx))
      (sidebar_update_addfav_transaction_other a.sidebar tx a.navigation.sidebar_tab htab)
    refine ⟨sb', "Favorited " ++ shortHex tx.hash, ?_⟩
    simp only [if_neg hmem]
    exact congrArg
      (fun s => (Except.ok (show_status s ("Favorited " ++ shortHex tx.hash))
          : Except AppModel AppModel)) hsc

/-! ### C4 — double toggle -/

/-- Counterexample to C4: double toggling is not the identity on
favorites state.  (1) With the removed favorite shown on the sidebar's
address tab, the removal re-selects the next sidebar entry, so the
second toggle removes that other entity: both `0xA` and `0xB` end up
un-favorited.  (2) Re-inserting builds the persisted record from the
selected entity's label, so a stored record with no label ends up with
one after toggling twice. -/
theorem C4_double_toggle_counterexample :
    ("0xB" ∈ reselectionModel.favorite_addresses ∧
      favAfterDoubleToggle reselectionModel = some []) ∧
    (favFind labelModel.store_addresses "0xA"
        = some { label := none, identifier := "0xA", chain := "Mainnet" } ∧
      storeAfterDoubleToggle labelModel
        = some [("0xA", { label := some "fancy", identifier := "0xA", chain := "Mainnet" })]) := by
  decide

/-- Membership of the inserted key after `HashSet::insert`. -/
theorem mem_setInsert_self (l : List String) (k : String) : k ∈ setInsert l k := by
  unfold setInsert
  split
  · assumption
  · exact List.mem_cons_self k l

/-- C4 (amended): provided the sidebar shows the other entity kind (so
removal cannot re-select a different entity and the same entity stays
selected for both toggles), a double toggle with the store succeeding
both times restores the favorites state: when the entity was a
favorite whose persisted record equals the record built from the
selected entity, membership and the persisted map are restored
exactly; when it was not a favorite and absent from the store,
membership set and store are restored verbatim. -/
theorem C4_double_toggle_amended :
    (∀ (a : AppModel) (addr : AddressRef),
      a.selected = some (.address addr) →
      ¬ a.navigation.sidebar_tab = SidebarTab.addresses →
      (addr.address ∈ a.favorite_addresses →
        favFind a.store_addresses addr.address
          = some { label := some addr.label, identifier := addr.address, chain := addr.chain } →
        ∃ a₂, toggle_twice a = .ok a₂ ∧
          (∀ x, x ∈ a₂.favorite_addresses ↔ x ∈ a.favorite_addresses) ∧
          (∀ k, favFind a₂.store_addresses k = favFind a.store_addresses k)) ∧
      (addr.address ∉ a.favorite_addresses →
        favFind a.store_addresses addr.address = none →
        ∃ a₂, toggle_twice a = .ok a₂ ∧
          a₂.favorite_addresses = a.favorite_addresses ∧
          a₂.store_addresses = a.store_addresses)) ∧
    (∀ (a : AppModel) (tx : TransactionRef),
      a.selected = some (.transaction tx) →
      ¬ a.navigation.sidebar_tab = SidebarTab.transactions →
      (tx.hash ∈ a.favorite_transactions →
        favFind a.store_transactions tx.hash
          = some { label := some tx.label, identifier := tx.hash, chain := tx.chain } →
        ∃ a₂, toggle_twice a = .ok a₂ ∧
          (∀ x, x ∈ a₂.favorite_transactions ↔ x ∈ a.favorite_transactions) ∧
          (∀ k, favFind a₂.store_transactions k = favFind a.store_transactions k)) ∧
      (tx.hash ∉ a.favorite_transactions →
        favFind a.store_transactions tx.hash = none →
        ∃ a₂, toggle_twice a = .ok a₂ ∧
          a₂.favorite_transactions = a.favorite_transactions ∧
          a₂.store_transactions = a.store_transactions)) := by
  constructor
  · intro a addr hsel htab
    constructor
    · intro hmem hrec
      obtain ⟨sb1, m1, h1⟩ := toggle_favorite_address_char a addr hsel htab
      simp only [if_pos hmem] at h1
      obtain ⟨sb2, m2, h2⟩ := toggle_favorite_address_char
        { a with
            store_addresses := favRemove a.store_addresses addr.address
            favorite_addresses := setRemove a.favorite_addresses addr.address
            sidebar := sb1
            top_status := some m1
            search_active := false
            pending_search := false }
        addr hsel htab
      have hnot : addr.address ∉ setRemove a.favorite_addresses addr.address :=
        setRemove_not_mem a.favorite_addresses addr.address
      simp only [if_neg hnot] at h2
      exact ⟨_,
        by unfold toggle_twice; rw [h1]; exact h2,
        fun x => mem_setInsert_setRemove a.favorite_addresses addr.address hmem x,
        fun k => favFind_upsert_after_remove a.store_addresses
          { label := some addr.label, identifier := addr.address, chain := addr.chain } hrec k⟩
    · intro hmem hrec
      obtain ⟨sb1, m1, h1⟩ := toggle_favorite_address_char a addr hsel htab
      simp only [if_neg hmem] at h1
      obtain ⟨sb2, m2, h2⟩ := toggle_favorite_address_char
        { a with
            store_addresses := favUpsert a.store_addresses
              { label := some addr.label, identifier := addr.address, chain := addr.chain }
            favorite_addresses := setInsert a.favorite_addresses addr.address
            sidebar := sb1
            top_status := some m1
            search_active := false
            pending_search := false }
        addr hsel htab
      have hmem1 : addr.address ∈ setInsert a.favorite_addresses addr.address :=
        mem_setInsert_self a.favorite_addresses addr.address
      simp only [if_pos hmem1] at h2
      exact ⟨_,
        by unfold toggle_twice; rw [h1]; exact h2,
        setRemove_setInsert a.favorite_addresses addr.address hmem,
        favStore_remove_upsert a.store_addresses
          { label := some addr.label, identifier := addr.address, chain := addr.chain } hrec⟩
  · intro a tx hsel htab
    constructor
    · intro hmem hrec
      obtain ⟨sb1, m1, h1⟩ := toggle_favorite_transaction_char a tx hsel htab
      simp only [if_pos hmem] at h1
      obtain ⟨sb2, m2, h2⟩ := toggle_favorite_transaction_char
        { a with
            store_transactions := favRemove a.store_transactions tx.hash
            favorite_transactions := setRemove a.favorite_transactions tx.hash
            sidebar := sb1
            top_status := some m1
            search_active := false
            pending_search := false }
        tx hsel htab
      have hnot : tx.hash ∉ setRemove a.favorite_transactions tx.hash :=
        setRemove_not_mem a.favorite_transactions tx.hash
      simp only [if_neg hnot] at h2
      exact ⟨_,
        by unfold toggle_twice; rw [h1]; exact h2,
        fun x => mem_setInsert_setRemove a.favorite_transactions tx.hash hmem x,
        fun k => favFind_upsert_after_remove a.store_transactions
          { label := some tx.label, identifier := tx.hash, chain := tx.chain } hrec k⟩
    · intro hmem hrec
      obtain ⟨sb1, m1, h1⟩ := toggle_favorite_transaction_char a tx hsel htab
      simp only [if_neg hmem] at h1
      obtain ⟨sb2, m2, h2⟩ := toggle_favorite_transaction_char
        { a with
            store_transactions := favUpsert a.store_transactions
              { label := some tx.label, identifier := tx.hash, chain := tx.chain }
            favorite_transactions := setInsert a.favorite_transactions tx.hash
            sidebar := sb1
            top_status := some m1
            search_active := false
            pending_search := false }
        tx hsel htab
      have hmem1 : tx.hash ∈ setInsert a.favorite_transactions tx.hash :=
        mem_setInsert_self a.favorite_transactions tx.hash
      simp only [if_pos hmem1] at h2
      exact ⟨_,
        by unfold toggle_twice; rw [h1]; exact h2,
        setRemove_setInsert a.favorite_transactions tx.hash hmem,
        favStore_remove_upsert a.store_transactions
          { label := some tx.label, identifier := tx.hash, chain := tx.chain } hrec⟩

/-- Witness for C4 (amended): in the clean setting the double toggle
completes and restores membership of the toggled address. -/
theorem C4_double_toggle_amended_witness :
    ("0xA" ∈ cleanToggleModel.favorite_addresses) ∧
    (match toggle_twice cleanToggleModel with
     | .ok a₂ => "0xA" ∈ a₂.favorite_addresses
     | .error _ => False) := by
  have h := (C4_double_toggle_amended.1 cleanToggleModel
    { label := "A", address := "0xA", chain := "Mainnet" } rfl (by decide)).1
    (by decide) (by decide)
  obtain ⟨a₂, heq, hmemiff, _⟩ := h
  refine ⟨by decide, ?_⟩
  rw [heq]
  exact (hmemiff "0xA").2 (by decide)

end EvmTui

